import Mathlib

/-!
TinyNSF: APU and memory bus

A shallow embedding of `src/apu.c` and of the bus functions of `src/tinynsf.c`.
The C globals (`apuctx`, `nes_wram`, ...) become explicit records that are passed
in and returned.  One-bit bit-fields are `Bool`; wider bit-fields and machine
integers are `Nat`, reduced modulo `2^w` wherever the C code stores the result
of an arithmetic expression into them.
-/

namespace TinyNSF

/-! ## Constant tables -/

/-- The macro `BIT(v, b)` of apu.h, `(((v>>b)&1) == 1)`. -/
def BIT (v b : Nat) : Bool := ((v >>> b) &&& 1) == 1

/-- Duty sequences of the pulse channels. -/
def pulseseq : List (List Nat) :=
  [ [0, 1, 0, 0, 0, 0, 0, 0],
    [0, 1, 1, 0, 0, 0, 0, 0],
    [0, 1, 1, 1, 1, 0, 0, 0],
    [1, 0, 0, 1, 1, 1, 1, 1] ]

/-- Output sequence of the triangle channel. -/
def triseq : List Nat :=
  [ 15, 14, 13, 12, 11, 10,  9,  8,
     7,  6,  5,  4,  3,  2,  1,  0,
     0,  1,  2,  3,  4,  5,  6,  7,
     8,  9, 10, 11, 12, 13, 14, 15 ]

def noise_periods_ntsc : List Nat :=
  [4, 8, 16, 32, 64, 96, 128, 160, 202, 254, 380, 508, 762, 1016, 2034, 4068]

def noise_periods_pal : List Nat :=
  [4, 7, 14, 30, 60, 88, 118, 148, 188, 236, 354, 472, 708, 944, 1890, 3778]

def dmc_periods_ntsc : List Nat :=
  [428, 380, 340, 320, 286, 254, 226, 214, 190, 160, 142, 128, 106, 84, 72, 54]

def dmc_periods_pal : List Nat :=
  [398, 354, 316, 298, 276, 236, 210, 198, 176, 148, 132, 118, 98, 78, 66, 50]

def length_lut : List Nat :=
  [ 10, 254, 20,  2, 40,  4, 80,  6, 160,  8, 60, 10, 14, 12, 26, 14,
    12,  16, 24, 18, 48, 20, 96, 22, 192, 24, 72, 26, 16, 28, 32, 30 ]

/-! ## Data model (`struct apu_s` and its parts) -/

/-- The record `struct apuenvelope_s`; widths 1,1,4,4,5,1,4. -/
structure apuenvelope_s where
  loop_halt : Bool
  const_vol : Bool
  volperiod : Nat
  counter : Nat
  divider : Nat
  start : Bool
  out : Nat
deriving DecidableEq, Repr

/-- The record `struct apupulse_s`; `counter` is the length counter (a full byte). -/
structure apupulse_s where
  duty : Nat
  env : apuenvelope_s
  sweep_enable : Bool
  sweep_period : Nat
  sweep_negate : Bool
  sweep_shift : Nat
  sweep_divider : Nat
  sweep_target : Nat
  sweep_silence : Bool
  sweep_reload : Bool
  timer_period : Nat
  counter : Nat
  timer : Nat
  phase : Nat
  enabled : Bool
deriving DecidableEq, Repr

/-- The record `struct aputri_s`. -/
structure aputri_s where
  control : Bool
  halt : Bool
  cnt_reload : Nat
  timer_period : Nat
  counter : Nat
  lincount : Nat
  timer : Nat
  phase : Nat
  enabled : Bool
deriving DecidableEq, Repr

/-- The record `struct apunoise_s`. -/
structure apunoise_s where
  env : apuenvelope_s
  mode : Bool
  period : Nat
  period_actual : Nat
  timer : Nat
  counter : Nat
  shiftreg : Nat
  enabled : Bool
deriving DecidableEq, Repr

/-- The record `struct apudmc_s`; `sample`, `shiftreg`, `bitsleft` and `silence` are
full bytes, `address` and `addresscur` 16-bit words. -/
structure apudmc_s where
  irq : Bool
  loop : Bool
  rate : Nat
  rate_actual : Nat
  timer : Nat
  address : Nat
  addresscur : Nat
  length : Nat
  bytesleft : Nat
  sample : Nat
  buffered : Bool
  counter : Nat
  shiftreg : Nat
  bitsleft : Nat
  silence : Nat
  control : Bool
deriving DecidableEq, Repr

/-- The record `struct apuframecnt_s`; `updated` is the pending-reset flag. -/
structure apuframecnt_s where
  mode : Bool
  interrupt : Bool
  int_inhibit : Bool
  updated : Bool
  count : Nat
deriving DecidableEq, Repr

/-- The record `struct apu_s`.  The pointer array `envelopes` is fixed by
`apu_create` to `pulse1.env`, `pulse2.env`, `noise.env` and is not a field here;
`noise_periods` and `dmc_periods` are the tables the two pointers refer to. -/
structure apu_s where
  regs : List Nat
  pulse1 : apupulse_s
  pulse2 : apupulse_s
  tri : aputri_s
  noise : apunoise_s
  dmc : apudmc_s
  framecnt : apuframecnt_s
  cpu_cycles : Nat
  cpu_clock : Nat
  clock_cycles_per_sample : Nat
  noise_periods : List Nat
  dmc_periods : List Nat
  pulse_mix_lut : List Nat
  tnd_mix_lut : List Nat
deriving DecidableEq, Repr

/-! ## Sweep target -/

/-- The value stored into the 12-bit field `sweep_target` by `apu_calcsweep_pulse1`;
the right-hand side is evaluated in `int`. -/
def sweep_target_pulse1 (p : apupulse_s) : Nat :=
  ((if p.sweep_negate then
      (p.timer_period : Int) - (((p.timer_period >>> p.sweep_shift : Nat) : Int) - 1)
    else
      (p.timer_period : Int) + ((p.timer_period >>> p.sweep_shift : Nat) : Int)) % 4096).toNat

/-- The value stored into the 12-bit field `sweep_target` by `apu_calcsweep_pulse2`. -/
def sweep_target_pulse2 (p : apupulse_s) : Nat :=
  ((if p.sweep_negate then
      (p.timer_period : Int) - ((p.timer_period >>> p.sweep_shift : Nat) : Int)
    else
      (p.timer_period : Int) + ((p.timer_period >>> p.sweep_shift : Nat) : Int)) % 4096).toNat

/-- The function `apu_calcsweep_pulse1`: the target, then `sweep_silence` set to 1
when `timer_period < 8 || sweep_target > 0x7FF` and to 0 otherwise. -/
def apu_calcsweep_pulse1 (p : apupulse_s) : apupulse_s :=
  { p with
    sweep_target := sweep_target_pulse1 p
    sweep_silence := decide (p.timer_period < 8 ∨ sweep_target_pulse1 p > 0x7FF) }

/-- The function `apu_calcsweep_pulse2`. -/
def apu_calcsweep_pulse2 (p : apupulse_s) : apupulse_s :=
  { p with
    sweep_target := sweep_target_pulse2 p
    sweep_silence := decide (p.timer_period < 8 ∨ sweep_target_pulse2 p > 0x7FF) }

/-! ## Register writes and the status read -/

/-- Cases `APU_PULSE1DUTYVOL`, `APU_PULSE2DUTYVOL`: the pulse record. -/
def write_dutyvol (data : Nat) (p : apupulse_s) : apupulse_s :=
  { p with
    duty := (data >>> 6) % 4
    env := { p.env with
      loop_halt := BIT data 5
      const_vol := BIT data 4
      volperiod := data &&& 0xF } }

/-- Cases `APU_PULSE1SWEEP`, `APU_PULSE2SWEEP`: the pulse record. -/
def write_sweep (data : Nat) (p : apupulse_s) : apupulse_s :=
  { p with
    sweep_enable := BIT data 7
    sweep_period := (data >>> 4) &&& 0x07
    sweep_negate := BIT data 3
    sweep_shift := data &&& 0x07
    sweep_reload := true }

/-- Cases `APU_PULSE1TMRL`, `APU_PULSE2TMRL`: the store to `timer_period`. -/
def write_tmrl (data : Nat) (p : apupulse_s) : apupulse_s :=
  { p with timer_period := ((p.timer_period &&& 0x0700) ||| data) % 2048 }

/-- Cases `APU_PULSE1TMRH`, `APU_PULSE2TMRH`: the store to `timer_period`. -/
def write_tmrh_period (data : Nat) (p : apupulse_s) : apupulse_s :=
  { p with timer_period := ((p.timer_period &&& 0x00FF) ||| ((data &&& 0x07) <<< 8)) % 2048 }

/-- Cases `APU_PULSE1TMRH`, `APU_PULSE2TMRH`: the statements after the sweep
recomputation (length load if enabled, phase reset, envelope start). -/
def write_tmrh_rest (data : Nat) (p : apupulse_s) : apupulse_s :=
  { p with
    counter := if p.enabled then length_lut.getD (data >>> 3) 0 else p.counter
    phase := 0
    env := { p.env with start := true } }

/-- Case `APU_TRICOUNTER`: the triangle record. -/
def write_tricounter (data : Nat) (t : aputri_s) : aputri_s :=
  { t with
    control := BIT data 7
    halt := if BIT data 7 then true else t.halt
    cnt_reload := data &&& 0x7f }

/-- Case `APU_TRITMRH`: the triangle record. -/
def write_tritmrh (data : Nat) (t : aputri_s) : aputri_s :=
  { t with
    timer_period := ((t.timer_period &&& 0x00FF) ||| ((data &&& 0x07) <<< 8)) % 2048
    counter := if t.enabled then length_lut.getD (data >>> 3) 0 else t.counter
    halt := true }

/-- Case `APU_NOISELCL`: the noise record. -/
def write_noiselcl (data : Nat) (n : apunoise_s) : apunoise_s :=
  { n with
    counter := if n.enabled then length_lut.getD (data >>> 3) 0 else n.counter
    env := { n.env with start := true } }

/-- The function `apu_write(word addr, byte data)`.  Every case first stores
`regs[addr&0x1F] = data`; an address outside the cases changes nothing. -/
def apu_write (addr data : Nat) (s : apu_s) : apu_s :=
  if addr = 0x4000 then
    { s with regs := s.regs.set (addr &&& 0x1F) data
             pulse1 := write_dutyvol data s.pulse1 }
  else if addr = 0x4001 then
    { s with regs := s.regs.set (addr &&& 0x1F) data
             pulse1 := write_sweep data s.pulse1 }
  else if addr = 0x4002 then
    { s with regs := s.regs.set (addr &&& 0x1F) data
             pulse1 := apu_calcsweep_pulse1 (write_tmrl data s.pulse1) }
  else if addr = 0x4003 then
    { s with regs := s.regs.set (addr &&& 0x1F) data
             pulse1 := write_tmrh_rest data
               (apu_calcsweep_pulse1 (write_tmrh_period data s.pulse1)) }
  else if addr = 0x4004 then
    { s with regs := s.regs.set (addr &&& 0x1F) data
             pulse2 := write_dutyvol data s.pulse2 }
  else if addr = 0x4005 then
    { s with regs := s.regs.set (addr &&& 0x1F) data
             pulse2 := write_sweep data s.pulse2 }
  else if addr = 0x4006 then
    { s with regs := s.regs.set (addr &&& 0x1F) data
             pulse2 := apu_calcsweep_pulse2 (write_tmrl data s.pulse2) }
  else if addr = 0x4007 then
    { s with regs := s.regs.set (addr &&& 0x1F) data
             pulse2 := write_tmrh_rest data
               (apu_calcsweep_pulse2 (write_tmrh_period data s.pulse2)) }
  else if addr = 0x4008 then
    { s with regs := s.regs.set (addr &&& 0x1F) data
             tri := write_tricounter data s.tri }
  else if addr = 0x400A then
    { s with regs := s.regs.set (addr &&& 0x1F) data
             tri := { s.tri with
               timer_period := ((s.tri.timer_period &&& 0x0700) ||| data) % 2048 } }
  else if addr = 0x400B then
    { s with regs := s.regs.set (addr &&& 0x1F) data
             tri := write_tritmrh data s.tri }
  else if addr = 0x400C then
    { s with regs := s.regs.set (addr &&& 0x1F) data
             noise := { s.noise with env := { s.noise.env with
               loop_halt := BIT data 5
               const_vol := BIT data 4
               volperiod := data &&& 0x0F } } }
  else if addr = 0x400E then
    { s with regs := s.regs.set (addr &&& 0x1F) data
             noise := { s.noise with
               mode := BIT data 7
               period := data &&& 0x0F
               period_actual := (s.noise_periods.getD (data &&& 0x0F) 0) % 4096 } }
  else if addr = 0x400F then
    { s with regs := s.regs.set (addr &&& 0x1F) data
             noise := write_noiselcl data s.noise }
  else if addr = 0x4010 then
    { s with regs := s.regs.set (addr &&& 0x1F) data
             dmc := { s.dmc with
               irq := BIT data 7
               loop := BIT data 6
               rate := data &&& 0x0f
               rate_actual := (s.dmc_periods.getD (data &&& 0x0f) 0) % 512 } }
  else if addr = 0x4011 then
    { s with regs := s.regs.set (addr &&& 0x1F) data
             dmc := { s.dmc with counter := data &&& 0x7f } }
  else if addr = 0x4012 then
    { s with regs := s.regs.set (addr &&& 0x1F) data
             dmc := { s.dmc with
               address := ((data <<< 6) ||| 0xC000) % 65536
               addresscur := ((data <<< 6) ||| 0xC000) % 65536 } }
  else if addr = 0x4013 then
    { s with regs := s.regs.set (addr &&& 0x1F) data
             dmc := { s.dmc with
               length := ((data <<< 4) ||| 1) % 4096
               bytesleft := ((data <<< 4) ||| 1) % 4096 } }
  else if addr = 0x4015 then
    { s with regs := s.regs.set (addr &&& 0x1F) data
             dmc := { s.dmc with control := BIT data 4 }
             noise := { s.noise with enabled := BIT data 3 }
             tri := { s.tri with enabled := BIT data 2 }
             pulse2 := { s.pulse2 with enabled := BIT data 1 }
             pulse1 := { s.pulse1 with enabled := BIT data 0 } }
  else if addr = 0x4017 then
    { s with regs := s.regs.set (addr &&& 0x1F) data
             framecnt := { s.framecnt with
               count := 0
               mode := BIT data 7
               int_inhibit := BIT data 6
               updated := true } }
  else
    s

/-- Value of a C comparison or one-bit field as an integer. -/
def b2n (b : Bool) : Nat := if b then 1 else 0

/-- The function `apu_read(word addr)`: the returned byte and the context, which
the function does not assign to. -/
def apu_read (addr : Nat) (s : apu_s) : Nat × apu_s :=
  if addr = 0x4015 then
    (((b2n s.dmc.irq <<< 7) ||| (b2n s.framecnt.interrupt <<< 6)
        ||| (b2n (decide (s.noise.counter > 0)) <<< 3)
        ||| (b2n (decide (s.tri.counter > 0)) <<< 2)
        ||| (b2n (decide (s.pulse2.counter > 0)) <<< 1)
        ||| b2n (decide (s.pulse1.counter > 0))) % 256, s)
  else
    (0, s)

/-! ## Frame clocks -/

/-- First half of the envelope loop body of `apu_quarter_frame`: restart, or the
divider tick (`--divider` on a 5-bit field) with its reload and the counter step. -/
def envelope_step (env : apuenvelope_s) : apuenvelope_s :=
  if env.start then
    { env with start := false, counter := 15, divider := (env.volperiod + 1) % 32 }
  else if (env.divider + 31) % 32 = 0 then
    if env.counter ≠ 0 then
      { env with divider := (env.volperiod + 1) % 32, counter := (env.counter - 1) % 16 }
    else if env.loop_halt then
      { env with divider := (env.volperiod + 1) % 32, counter := 15 }
    else
      { env with divider := (env.volperiod + 1) % 32 }
  else
    { env with divider := (env.divider + 31) % 32 }

/-- Second half of the envelope loop body: the store to `out`. -/
def envelope_out (env : apuenvelope_s) : apuenvelope_s :=
  if env.const_vol then { env with out := env.volperiod } else { env with out := env.counter }

/-- Body of the envelope loop of `apu_quarter_frame`, for one envelope. -/
def envelope_clock (env : apuenvelope_s) : apuenvelope_s :=
  envelope_out (envelope_step env)

/-- The linear counter statement of `apu_quarter_frame`. -/
def linear_clock (t : aputri_s) : aputri_s :=
  if t.halt then
    { t with lincount := t.cnt_reload }
  else if t.lincount ≠ 0 then
    { t with lincount := (t.lincount - 1) % 128 }
  else t

/-- The last statement of `apu_quarter_frame`, `if(!tri.control) tri.halt = 0`. -/
def halt_clear (t : aputri_s) : aputri_s :=
  if !t.control then { t with halt := false } else t

/-- The function `apu_quarter_frame`: the three envelopes, then the triangle's
linear counter. -/
def apu_quarter_frame (s : apu_s) : apu_s :=
  { s with
    pulse1 := { s.pulse1 with env := envelope_clock s.pulse1.env }
    pulse2 := { s.pulse2 with env := envelope_clock s.pulse2.env }
    noise := { s.noise with env := envelope_clock s.noise.env }
    tri := halt_clear (linear_clock s.tri) }

/-- One length-counter block of `apu_half_frame`: the new value of `counter`, given
the channel's `enabled` flag and its halt flag. -/
def length_clock (enabled halt : Bool) (counter : Nat) : Nat :=
  if enabled then
    if counter ≠ 0 ∧ !halt then (counter - 1) % 256 else counter
  else 0

/-- The length-counter block of a pulse channel. -/
def pulse_length_clock (p : apupulse_s) : apupulse_s :=
  { p with counter := length_clock p.enabled p.env.loop_halt p.counter }

/-- One sweep block of `apu_half_frame`; `recalc` is the channel's `apu_calcsweep_*`.
The store `timer_period = sweep_target` goes from a 12-bit to an 11-bit field. -/
def sweep_clock (recalc : apupulse_s → apupulse_s) (p : apupulse_s) : apupulse_s :=
  if p.sweep_divider ≠ 0 then
    if p.sweep_reload then
      { p with sweep_reload := false, sweep_divider := (p.sweep_period + 1) % 16 }
    else
      { p with sweep_divider := (p.sweep_divider - 1) % 16 }
  else if p.sweep_enable ∧ p.sweep_shift ≠ 0 then
    recalc { p with
      sweep_divider := (p.sweep_period + 1) % 16
      timer_period := p.sweep_target % 2048 }
  else p

/-- The function `apu_half_frame`: four length counters, then the two sweep units. -/
def apu_half_frame (s : apu_s) : apu_s :=
  { s with
    pulse1 := sweep_clock apu_calcsweep_pulse1 (pulse_length_clock s.pulse1)
    pulse2 := sweep_clock apu_calcsweep_pulse2 (pulse_length_clock s.pulse2)
    tri := { s.tri with counter := length_clock s.tri.enabled s.tri.halt s.tri.counter }
    noise := { s.noise with
      counter := length_clock s.noise.enabled s.noise.env.loop_halt s.noise.counter } }

/-- The right-hand sides of `apu_noisegen`, on the shift register.  In C the
conditional operator binds weaker than the shift, so `<<14` belongs to the third
operand only: `mode ? (b0 ^ b5) : ((b0 ^ b1) << 14)`; `feedback` is a 16-bit word and
the result is stored into the 15-bit field. -/
def noisegen (mode : Bool) (shiftreg : Nat) : Nat :=
  ((shiftreg >>> 1) |||
    (if mode then
      ((shiftreg &&& 1) ^^^ ((shiftreg >>> 5) &&& 1)) % 65536
    else
      (((shiftreg &&& 1) ^^^ ((shiftreg >>> 1) &&& 1)) <<< 14) % 65536)) % 32768

/-- The function `apu_noisegen`, on the noise record. -/
def apu_noisegen (n : apunoise_s) : apunoise_s :=
  { n with shiftreg := noisegen n.mode n.shiftreg }

/-! ## Memory bus (`tinynsf.c`) -/

/-- The globals of tinynsf.c read by `Rd6502`.  The field `banked` says which
function the pointer `cart_read` holds (`cart_read_bankswitch` when true,
`cart_read_sequential` otherwise); `nsf_data` is the content of the opened file
after its 128-byte header and `file_null` says that `nsFile == NULL`. -/
structure Bus where
  nes_wram : List Nat
  nes_sram : List Nat
  bankswitch : List Nat
  banked : Bool
  bank_padding : Nat
  load : Nat
  nsf_data : List Nat
  file_null : Bool
deriving DecidableEq, Repr

/-- The function `read_nsf_data(word offset)`: the byte at `offset` past the header,
0 when `fgetc` reports the end of the file. -/
def read_nsf_data (b : Bus) (offset : Nat) : Nat :=
  b.nsf_data.getD offset 0

/-- The function `cart_read_sequential(word addr)`; the difference is converted to
the 16-bit parameter of `read_nsf_data`. -/
def cart_read_sequential (b : Bus) (addr : Nat) : Nat :=
  if b.file_null then 0
  else read_nsf_data b ((((addr : Int) - (b.load : Int)) % 65536).toNat)

/-- The function `cart_read_bankswitch(word addr)`; `bank` is a byte and the index
expression, computed in `int`, is converted to the 16-bit parameter of
`read_nsf_data`. -/
def cart_read_bankswitch (b : Bus) (addr : Nat) : Nat :=
  let bank : Nat := ((((addr : Int) - 0x8000) / 4096) % 256).toNat
  if addr ≤ (0x8000 ||| b.bank_padding) then 0
  else
    read_nsf_data b
      (((((b.bankswitch.getD bank 0 * 0x1000 + (addr &&& 0xFFF) : Nat) : Int)
          - (b.bank_padding : Int)) % 65536).toNat)

/-- The call through the pointer `cart_read`. -/
def cart_read (b : Bus) (addr : Nat) : Nat :=
  if b.banked then cart_read_bankswitch b addr else cart_read_sequential b addr

/-- The function `Rd6502(word Addr)`. -/
def Rd6502 (b : Bus) (Addr : Nat) : Nat :=
  if Addr ≤ 0x7ff then b.nes_wram.getD Addr 0
  else if Addr ≤ 0x1fff then b.nes_wram.getD (Addr &&& 0x7ff) 0
  else if Addr ≥ 0x8000 then cart_read b Addr
  else if Addr ≥ 0x5ff8 ∧ Addr ≤ 0x5fff then b.bankswitch.getD ((Addr &&& 0xF) - 8) 0
  else if Addr ≥ 0x6000 ∧ Addr ≤ 0x7fff then b.nes_sram.getD (Addr - 0x6000) 0
  else 0

/-! ## Cycle processing (`apu_process`) -/

/-- The statement `if(apuctx->framecnt.updated) apuctx->framecnt.updated = 0`. -/
def clear_updated (s : apu_s) : apu_s :=
  if s.framecnt.updated then
    { s with framecnt := { s.framecnt with updated := false } }
  else s

/-- First statement of the block "clock frame counter": which frame clocks fire. -/
def frame_events (s : apu_s) : apu_s :=
  if s.framecnt.mode then
    if s.framecnt.updated ∨ s.framecnt.count = 7456 ∨ s.framecnt.count = 18640 then
      clear_updated (apu_half_frame (apu_quarter_frame s))
    else if s.framecnt.count = 3728 ∨ s.framecnt.count = 11185 then
      apu_quarter_frame s
    else s
  else
    if s.framecnt.updated ∨ s.framecnt.count = 7456 ∨ s.framecnt.count = 14914 then
      clear_updated (apu_half_frame (apu_quarter_frame s))
    else if s.framecnt.count = 3728 ∨ s.framecnt.count = 11185 then
      apu_quarter_frame s
    else s

/-- Second statement of the block "clock frame counter": the wrap or increment of
the 15-bit `count`, with the interrupt flag in the 4-step sequence. -/
def frame_advance (f : apuframecnt_s) : apuframecnt_s :=
  if f.mode then
    if f.count = 18640 then { f with count := 0 }
    else { f with count := (f.count + 1) % 32768 }
  else
    if f.count = 14914 then
      { f with count := 0, interrupt := if !f.int_inhibit then true else f.interrupt }
    else { f with count := (f.count + 1) % 32768 }

/-- The context with `framecnt` advanced. -/
def frame_count (s : apu_s) : apu_s :=
  { s with framecnt := frame_advance s.framecnt }

/-- The block "clock frame counter" of `apu_process`, entered when `(c&1)` or
`framecnt.updated` holds. -/
def frame_clock (s : apu_s) : apu_s :=
  frame_count (frame_events s)

/-- Timer block of one pulse channel inside `if(c&1)`. -/
def pulse_timer (p : apupulse_s) : apupulse_s :=
  if p.timer ≠ 0 then
    { p with timer := (p.timer - 1) % 4096 }
  else if p.phase ≠ 0 then
    { p with timer := p.timer_period, phase := (p.phase - 1) % 8 }
  else
    { p with timer := p.timer_period, phase := 7 }

/-- Timer block of the noise channel inside `if(c&1)`. -/
def noise_timer (n : apunoise_s) : apunoise_s :=
  if n.timer ≠ 0 then
    { n with timer := (n.timer - 1) % 4096 }
  else
    apu_noisegen { n with timer := n.period_actual }

/-- The block `if(c&1)` "process timers for all waves". -/
def wave_timers (s : apu_s) : apu_s :=
  { s with
    pulse1 := pulse_timer s.pulse1
    pulse2 := pulse_timer s.pulse2
    noise := noise_timer s.noise }

/-- The memory reader of the DMC once its three conditions hold: the fetch, the
decrement of the 12-bit `bytesleft`, the end-of-sample or address step, and
`buffered = 1`. -/
def dmc_fetch (bus : Bus) (d : apudmc_s) : apudmc_s :=
  if (d.bytesleft - 1) % 4096 = 0 then
    if d.loop then
      { d with sample := Rd6502 bus d.addresscur, addresscur := d.address,
               bytesleft := d.length, buffered := true }
    else
      { d with sample := Rd6502 bus d.addresscur, bytesleft := (d.bytesleft - 1) % 4096,
               irq := true, buffered := true }
  else if d.addresscur = 0xFFFF then
    { d with sample := Rd6502 bus d.addresscur, bytesleft := (d.bytesleft - 1) % 4096,
             addresscur := 0x8000, buffered := true }
  else
    { d with sample := Rd6502 bus d.addresscur, bytesleft := (d.bytesleft - 1) % 4096,
             addresscur := (d.addresscur + 1) % 65536, buffered := true }

/-- The memory reader of the DMC (the block `if(apuctx->dmc.control)`). -/
def dmc_reader (bus : Bus) (d : apudmc_s) : apudmc_s :=
  if d.control then
    if !d.buffered ∧ d.bytesleft ≠ 0 then dmc_fetch bus d else d
  else d

/-- The value, over the integers, that the output unit of the DMC computes for
`dmc.counter` when it is not silenced (`counter-=2`, `counter+=2` or no change). -/
def dmc_delta (counter shiftreg : Nat) : Int :=
  if counter > 1 ∧ (shiftreg &&& 1) = 0 then
    (counter : Int) - 2
  else if counter < 126 ∧ (shiftreg &&& 1) ≠ 0 then
    (counter : Int) + 2
  else
    (counter : Int)

/-- Output unit of the DMC: the block `if(!apuctx->dmc.bitsleft)`. -/
def dmc_reload (d : apudmc_s) : apudmc_s :=
  if d.bitsleft = 0 then
    if !d.buffered then
      { d with bitsleft := 8, silence := 1 }
    else
      { d with bitsleft := 8, silence := 0, shiftreg := d.sample, buffered := false }
  else d

/-- Output unit of the DMC: the block `if(!apuctx->dmc.silence)`; the computed
counter is stored into the 7-bit field. -/
def dmc_adjust (d : apudmc_s) : apudmc_s :=
  if d.silence = 0 then
    { d with counter := ((dmc_delta d.counter d.shiftreg) % 128).toNat }
  else d

/-- Output unit of the DMC: `shiftreg>>=1; --bitsleft` (a byte). -/
def dmc_shift (d : apudmc_s) : apudmc_s :=
  { d with shiftreg := d.shiftreg >>> 1, bitsleft := (d.bitsleft + 255) % 256 }

/-- The output unit of the DMC (from `if(apuctx->dmc.timer)` on). -/
def dmc_output (d : apudmc_s) : apudmc_s :=
  if d.timer ≠ 0 then
    { d with timer := (d.timer - 1) % 512 }
  else
    dmc_shift (dmc_adjust (dmc_reload { d with timer := d.rate_actual }))

/-- The triangle timer, "clocked on every cycle". -/
def tri_timer (t : aputri_s) : aputri_s :=
  if t.lincount > 0 ∧ t.counter > 0 then
    if t.timer ≠ 0 then
      { t with timer := (t.timer - 1) % 2048 }
    else if t.phase ≠ 0 then
      { t with timer := t.timer_period, phase := (t.phase - 1) % 32 }
    else
      { t with timer := t.timer_period, phase := 31 }
  else t

/-- First part of the loop body of `apu_process`: the frame counter. -/
def frame_phase (c : Nat) (s : apu_s) : apu_s :=
  if (c &&& 1) ≠ 0 ∨ s.framecnt.updated then frame_clock s else s

/-- Second part of the loop body: the pulse and noise timers. -/
def timer_phase (c : Nat) (s : apu_s) : apu_s :=
  if (c &&& 1) ≠ 0 then wave_timers s else s

/-- Third part of the loop body: the DMC and the triangle timer. -/
def every_cycle_phase (bus : Bus) (s : apu_s) : apu_s :=
  { s with dmc := dmc_output (dmc_reader bus s.dmc), tri := tri_timer s.tri }

/-- Body of the loop of `apu_process` for loop index `c`. -/
def apu_cycle (bus : Bus) (c : Nat) (s : apu_s) : apu_s :=
  every_cycle_phase bus (timer_phase c (frame_phase c s))

/-- The loop of `apu_process` from index `c` for `k` more iterations. -/
def apu_process_from (bus : Bus) : Nat → Nat → apu_s → apu_s
  | _, 0, s => s
  | c, k + 1, s => apu_process_from bus (c + 1) k (apu_cycle bus c s)

/-- The function `apu_process(uint32_t cpu_cycles)`: `for(c = 0; c < cpu_cycles; ++c)`. -/
def apu_process (bus : Bus) (cpu_cycles : Nat) (s : apu_s) : apu_s :=
  apu_process_from bus 0 cpu_cycles s

/-! ## Mixer (`apu_output`) -/

/-- Conversion of a 64-bit value to `int32_t` (two's complement wrap). -/
def to_int32 (x : Int) : Int := (x + 2 ^ 31) % 2 ^ 32 - 2 ^ 31

/-- The local `pulse1` / `pulse2` of `apu_output` (a byte). -/
def pulse_out (p : apupulse_s) : Nat :=
  if p.counter = 0 ∨ p.sweep_silence then 0
  else
    ((pulseseq.getD p.duty []).getD p.phase 0 * p.env.out
      * b2n (decide (p.counter > 0))) % 256

/-- The local `tri` of `apu_output`. -/
def tri_out (t : aputri_s) : Nat :=
  if t.timer_period < 2 then 7 else triseq.getD t.phase 0

/-- The local `noise` of `apu_output` (a byte). -/
def noise_out (n : apunoise_s) : Nat :=
  ((n.shiftreg &&& 1) * n.env.out * b2n (decide (n.counter > 0))) % 256

/-- The local `dmc` of `apu_output`. -/
def dmc_out (d : apudmc_s) : Nat := d.counter

/-- Index into `pulse_mix_lut` used by `apu_output`. -/
def pulse_index (s : apu_s) : Nat := pulse_out s.pulse1 + pulse_out s.pulse2

/-- Index into `tnd_mix_lut` used by `apu_output`,
`(tri + (tri<<1)) + (noise<<1) + dmc`. -/
def tnd_index (s : apu_s) : Nat :=
  (tri_out s.tri + (tri_out s.tri <<< 1)) + (noise_out s.noise <<< 1) + dmc_out s.dmc

/-- The return expression of `apu_output`: the two table entries are added in
`uint32_t`, the constant `0x7fffffffL` is subtracted in 64 bits and the result is
converted to `int32_t`. -/
def mix (s : apu_s) : Int :=
  to_int32
    ((((s.pulse_mix_lut.getD (pulse_index s) 0 + s.tnd_mix_lut.getD (tnd_index s) 0)
        % 2 ^ 32 : Nat) : Int) - 0x7fffffff)

/-- The statement `cpu_cycles += clock_cycles_per_sample` (32 bits). -/
def add_cycles (s : apu_s) : apu_s :=
  { s with cpu_cycles := (s.cpu_cycles + s.clock_cycles_per_sample) % 2 ^ 32 }

/-- The statement `cpu_cycles &= 0xFFFF`. -/
def mask_cycles (s : apu_s) : apu_s :=
  { s with cpu_cycles := s.cpu_cycles &&& 0xFFFF }

/-- The state after the cycle advancement of `apu_output` (its first three
statements). -/
def apu_advance (bus : Bus) (s : apu_s) : apu_s :=
  mask_cycles (apu_process bus ((add_cycles s).cpu_cycles >>> 16) (add_cycles s))

/-- The function `apu_output` on an existing context: the sample and the new state. -/
def apu_output (bus : Bus) (s : apu_s) : Int × apu_s :=
  (mix (apu_advance bus s), apu_advance bus s)

/-! ## Creation and reset -/

/-- All-zero envelope. -/
def zero_env : apuenvelope_s :=
  { loop_halt := false, const_vol := false, volperiod := 0, counter := 0, divider := 0,
    start := false, out := 0 }

/-- All-zero pulse record. -/
def zero_pulse : apupulse_s :=
  { duty := 0, env := zero_env, sweep_enable := false, sweep_period := 0,
    sweep_negate := false, sweep_shift := 0, sweep_divider := 0, sweep_target := 0,
    sweep_silence := false, sweep_reload := false, timer_period := 0, counter := 0,
    timer := 0, phase := 0, enabled := false }

/-- All-zero triangle record. -/
def zero_tri : aputri_s :=
  { control := false, halt := false, cnt_reload := 0, timer_period := 0, counter := 0,
    lincount := 0, timer := 0, phase := 0, enabled := false }

/-- All-zero noise record. -/
def zero_noise : apunoise_s :=
  { env := zero_env, mode := false, period := 0, period_actual := 0, timer := 0,
    counter := 0, shiftreg := 0, enabled := false }

/-- All-zero DMC record. -/
def zero_dmc : apudmc_s :=
  { irq := false, loop := false, rate := 0, rate_actual := 0, timer := 0, address := 0,
    addresscur := 0, length := 0, bytesleft := 0, sample := 0, buffered := false,
    counter := 0, shiftreg := 0, bitsleft := 0, silence := 0, control := false }

/-- All-zero frame counter. -/
def zero_framecnt : apuframecnt_s :=
  { mode := false, interrupt := false, int_inhibit := false, updated := false, count := 0 }

/-- The `memset` of `apu_reset`: every member before `envelopes` is zeroed
(`regs` has 24 bytes), the members from `envelopes` on are kept. -/
def apu_clear (s : apu_s) : apu_s :=
  { s with
    regs := List.replicate 24 0
    pulse1 := zero_pulse
    pulse2 := zero_pulse
    tri := zero_tri
    noise := zero_noise
    dmc := zero_dmc
    framecnt := zero_framecnt
    cpu_cycles := 0 }

/-- The last statement of `apu_reset`, `apuctx->noise.shiftreg = 1`. -/
def seed_noise (s : apu_s) : apu_s :=
  { s with noise := { s.noise with shiftreg := 1 } }

/-- The function `apu_reset` on an existing context.  The loop calls
`apu_write(i, 0x00)` with `i` running over `0x00 .. 0x13`. -/
def apu_reset (s : apu_s) : apu_s :=
  seed_noise
    (apu_write 0x4017 0x40
      (apu_write 0x4015 0x0f
        ((List.range 0x14).foldl (fun st i => apu_write i 0x00 st) (apu_clear s))))

/-- The function `apu_create`: `mem` is the content of the freshly allocated block,
`pulse_lut` and `tnd_lut` are the two tables that the C code fills in floating
point.  Any `clockstandard` other than `APU_PAL` (1) selects the NTSC values. -/
def apu_create (samplerate clockstandard : Nat) (pulse_lut tnd_lut : List Nat)
    (mem : apu_s) : apu_s :=
  { mem with
    cpu_clock := if clockstandard = 1 then 1662607 else 1789773
    noise_periods := if clockstandard = 1 then noise_periods_pal else noise_periods_ntsc
    dmc_periods := if clockstandard = 1 then dmc_periods_pal else dmc_periods_ntsc
    clock_cycles_per_sample :=
      ((((if clockstandard = 1 then 1662607 else 1789773) <<< 16) % 2 ^ 64) / samplerate)
        % 2 ^ 32
    pulse_mix_lut := pulse_lut
    tnd_mix_lut := tnd_lut }

/-! ## Call sequences -/

/-- One call of the public interface of apu.c on an existing context.  The
arguments are converted to the parameter types (`word`, `byte`, `uint32_t`). -/
inductive Op where
  | write (addr data : Nat)
  | read (addr : Nat)
  | process (bus : Bus) (cpu_cycles : Nat)
  | output (bus : Bus)

/-- The context after one call. -/
def step_op : Op → apu_s → apu_s
  | .write addr data, s => apu_write (addr % 65536) (data % 256) s
  | .read addr, s => (apu_read (addr % 65536) s).2
  | .process bus n, s => apu_process bus (n % 2 ^ 32) s
  | .output bus, s => (apu_output bus s).2

/-- The context after a sequence of calls, first call first. -/
def run (ops : List Op) (s : apu_s) : apu_s :=
  ops.foldl (fun st o => step_op o st) s

/-! ## Concrete contexts used in examples -/

/-- The table `pulse_mix_lut` as `apu_create` fills it, the C expression being
evaluated in IEEE double precision. -/
def pulse_mix_lut_f64 : List Nat :=
  [
    0, 49860874, 98524321, 146032964, 192427427, 237746451,
    282027000, 325304364, 367612254, 408982884, 449447059, 489034247,
    527772653, 565689285, 602810019, 639159653, 674761967, 709639773,
    743814964, 777308560, 810140750, 842330934, 873897760, 904859162,
    935232392, 965034051, 994280124, 1022986004, 1051166519, 1078835963,
    1106008112 ]

/-- The table `tnd_mix_lut` as `apu_create` fills it, the C expression being
evaluated in IEEE double precision. -/
def tnd_mix_lut_f64 : List Nat :=
  [
    0, 28775524, 57316425, 85625558, 113705737, 141559727,
    169190251, 196599987, 223791570, 250767595, 277530615, 304083144,
    330427653, 356566579, 382502318, 408237231, 433773641, 459113836,
    484260069, 509214558, 533979488, 558557010, 582949245, 607158279,
    631186169, 655034940, 678706588, 702203079, 725526348, 748678306,
    771660833, 794475781, 817124977, 839610221, 861933286, 884095921,
    906099849, 927946769, 949638355, 971176258, 992562105, 1013797501,
    1034884029, 1055823248, 1076616696, 1097265891, 1117772327, 1138137482,
    1158362809, 1178449743, 1198399701, 1218214079, 1237894254, 1257441585,
    1276857413, 1296143060, 1315299830, 1334329013, 1353231877, 1372009677,
    1390663649, 1409195015, 1427604979, 1445894731, 1464065443, 1482118275,
    1500054370, 1517874856, 1535580847, 1553173444, 1570653733, 1588022784,
    1605281658, 1622431398, 1639473036, 1656407593, 1673236073, 1689959470,
    1706578766, 1723094929, 1739508916, 1755821674, 1772034134, 1788147220,
    1804161843, 1820078901, 1835899285, 1851623871, 1867253528, 1882789113,
    1898231472, 1913581442, 1928839850, 1944007512, 1959085236, 1974073819,
    1988974049, 2003786706, 2018512558, 2033152368, 2047706886, 2062176857,
    2076563014, 2090866083, 2105086783, 2119225823, 2133283904, 2147261720,
    2161159956, 2174979289, 2188720390, 2202383922, 2215970539, 2229480888,
    2242915611, 2256275340, 2269560702, 2282772315, 2295910793, 2308976741,
    2321970757, 2334893435, 2347745359, 2360527111, 2373239261, 2385882379,
    2398457024, 2410963751, 2423403109, 2435775640, 2448081883, 2460322368,
    2472497621, 2484608161, 2496654505, 2508637159, 2520556629, 2532413413,
    2544208004, 2555940890, 2567612554, 2579223474, 2590774123, 2602264969,
    2613696475, 2625069100, 2636383297, 2647639516, 2658838201, 2669979792,
    2681064725, 2692093430, 2703066335, 2713983862, 2724846428, 2735654449,
    2746408333, 2757108487, 2767755312, 2778349207, 2788890563, 2799379773,
    2809817220, 2820203289, 2830538356, 2840822798, 2851056984, 2861241283,
    2871376058, 2881461670, 2891498476, 2901486828, 2911427077, 2921319570,
    2931164650, 2940962657, 2950713928, 2960418796, 2970077592, 2979690643,
    2989258274, 2998780805, 3008258554, 3017691838, 3027080967, 3036426252,
    3045727999, 3054986510, 3064202088, 3073375029, 3082505630, 3091594182,
    3100640976, 3109646298, 3118610433, 3127533663, 3136416268, 3145258523,
    3154060704, 3162823082, 3171545927, 3180229506, 3188874082 ]

/-- A zero-filled memory block. -/
def zero_mem : apu_s :=
  { regs := List.replicate 24 0, pulse1 := zero_pulse, pulse2 := zero_pulse,
    tri := zero_tri, noise := zero_noise, dmc := zero_dmc, framecnt := zero_framecnt,
    cpu_cycles := 0, cpu_clock := 0, clock_cycles_per_sample := 0, noise_periods := [],
    dmc_periods := [], pulse_mix_lut := [], tnd_mix_lut := [] }

/-- The context `apu_create(48000, APU_NTSC)` of `initNSF`. -/
def ntsc_ctx : apu_s := apu_create 48000 0 pulse_mix_lut_f64 tnd_mix_lut_f64 zero_mem

/-- A bus with zeroed RAM and an empty image. -/
def zero_bus : Bus :=
  { nes_wram := List.replicate 2048 0, nes_sram := List.replicate 8192 0,
    bankswitch := List.replicate 8 0, banked := false, bank_padding := 0,
    load := 0x8000, nsf_data := [], file_null := false }

/-- The reset sequence in the words of the specification: zero the dynamic state,
write 0x00 to `$4000`-`$4013`, 0x0F to `$4015`, 0x40 to `$4017`, set the noise
shift register to 1.  Used only for comparison with `apu_reset`. -/
def reset_by_registers (s : apu_s) : apu_s :=
  seed_noise
    (apu_write 0x4017 0x40
      (apu_write 0x4015 0x0f
        ((List.range 0x14).foldl (fun st i => apu_write (0x4000 + i) 0x00 st)
          (apu_clear s))))

/-- Reset, `$4015 = 0x01`, `$4003 = 0x08`, `$4000 = 0x30`: the length counter of
pulse 1 is loaded with 254 and held. -/
def held_pulse1 : apu_s :=
  apu_write 0x4000 0x30 (apu_write 0x4003 0x08 (apu_write 0x4015 0x01 (apu_reset ntsc_ctx)))

/-! ## Declared widths -/

/-- Every field of an envelope is within its declared bit width. -/
def env_wf (e : apuenvelope_s) : Prop :=
  e.volperiod < 16 ∧ e.counter < 16 ∧ e.divider < 32 ∧ e.out < 16

instance (e : apuenvelope_s) : Decidable (env_wf e) := by
  unfold env_wf
  infer_instance

/-- Every field of a pulse record is within its declared bit width. -/
def pulse_wf (p : apupulse_s) : Prop :=
  p.duty < 4 ∧ env_wf p.env ∧ p.sweep_period < 8 ∧ p.sweep_shift < 8
  ∧ p.sweep_divider < 16 ∧ p.sweep_target < 4096 ∧ p.timer_period < 2048
  ∧ p.counter < 256 ∧ p.timer < 4096 ∧ p.phase < 8

instance (p : apupulse_s) : Decidable (pulse_wf p) := by
  unfold pulse_wf
  infer_instance

/-- Every field of the triangle record is within its declared bit width. -/
def tri_wf (t : aputri_s) : Prop :=
  t.cnt_reload < 128 ∧ t.timer_period < 2048 ∧ t.counter < 256 ∧ t.lincount < 128
  ∧ t.timer < 2048 ∧ t.phase < 32

instance (t : aputri_s) : Decidable (tri_wf t) := by
  unfold tri_wf
  infer_instance

/-- Every field of the noise record is within its declared bit width. -/
def noise_wf (n : apunoise_s) : Prop :=
  env_wf n.env ∧ n.period < 16 ∧ n.period_actual < 4096 ∧ n.timer < 4096
  ∧ n.counter < 256 ∧ n.shiftreg < 32768

instance (n : apunoise_s) : Decidable (noise_wf n) := by
  unfold noise_wf
  infer_instance

/-- Every field of the DMC record is within its declared bit width. -/
def dmc_wf (d : apudmc_s) : Prop :=
  d.rate < 16 ∧ d.rate_actual < 512 ∧ d.timer < 512 ∧ d.address < 65536
  ∧ d.addresscur < 65536 ∧ d.length < 4096 ∧ d.bytesleft < 4096 ∧ d.sample < 256
  ∧ d.counter < 128 ∧ d.shiftreg < 256 ∧ d.bitsleft < 256 ∧ d.silence < 256

instance (d : apudmc_s) : Decidable (dmc_wf d) := by
  unfold dmc_wf
  infer_instance

/-- Every member of the context is within its declared width, and the tables have
their declared sizes. -/
def apu_wf (s : apu_s) : Prop :=
  s.regs.length = 24 ∧ (∀ r ∈ s.regs, r < 256)
  ∧ pulse_wf s.pulse1 ∧ pulse_wf s.pulse2 ∧ tri_wf s.tri ∧ noise_wf s.noise ∧ dmc_wf s.dmc
  ∧ s.framecnt.count < 32768
  ∧ s.cpu_cycles < 2 ^ 32 ∧ s.cpu_clock < 2 ^ 32 ∧ s.clock_cycles_per_sample < 2 ^ 32
  ∧ s.noise_periods.length = 16 ∧ (∀ x ∈ s.noise_periods, x < 65536)
  ∧ s.dmc_periods.length = 16 ∧ (∀ x ∈ s.dmc_periods, x < 65536)
  ∧ s.pulse_mix_lut.length = 31 ∧ (∀ x ∈ s.pulse_mix_lut, x < 2 ^ 32)
  ∧ s.tnd_mix_lut.length = 203 ∧ (∀ x ∈ s.tnd_mix_lut, x < 2 ^ 32)

instance (s : apu_s) : Decidable (apu_wf s) := by
  unfold apu_wf
  infer_instance

/-- The fields read by the mixer are within their declared widths. -/
def mix_wf (s : apu_s) : Prop :=
  env_wf s.pulse1.env ∧ env_wf s.pulse2.env ∧ env_wf s.noise.env ∧ s.dmc.counter < 128

/-- The four length counters are at most 254. -/
def len_ok (s : apu_s) : Prop :=
  s.pulse1.counter ≤ 254 ∧ s.pulse2.counter ≤ 254 ∧ s.tri.counter ≤ 254
  ∧ s.noise.counter ≤ 254

/-- The noise shift register is a nonzero 15-bit value. -/
def shift_ok (s : apu_s) : Prop :=
  0 < s.noise.shiftreg ∧ s.noise.shiftreg < 32768

/-- The DMC delta counter is a 7-bit value. -/
def dmc_ok (s : apu_s) : Prop := s.dmc.counter < 128

/-- The LFSR step in the words of the specification: shift right by one and place
`b = (s & 1) XOR ((s >> (mode ? 6 : 1)) & 1)` into bit 14.  Used only for comparison
with `noisegen`. -/
def lfsr_step_spec (mode : Bool) (s : Nat) : Nat :=
  (s >>> 1) ||| (((s &&& 1) ^^^ ((s >>> (if mode then 6 else 1)) &&& 1)) <<< 14)

/-- Reset, `$4015 = 0x08`, `$400C = 0x15` (constant volume 5), `$400F = 0x08`
(length 254), then one CPU cycle, which runs the pending quarter and half frame. -/
def noise_demo : apu_s :=
  apu_process zero_bus 1
    (apu_write 0x400F 0x08 (apu_write 0x400C 0x15 (apu_write 0x4015 0x08 (apu_reset ntsc_ctx))))

/-- The triangle length counter is 0 and phase and timer period have the given
values. -/
def tri_frozen (p tp : Nat) (s : apu_s) : Prop :=
  s.tri.counter = 0 ∧ s.tri.phase = p ∧ s.tri.timer_period = tp

/-- The count at which the frame sequence wraps: the constant compared with
`framecnt.count` in the 5-step and in the 4-step branch of `apu_process`. -/
def frame_terminal (mode : Bool) : Nat := if mode then 18640 else 14914

/-- A cleared NTSC context whose 15-bit frame count holds its largest value. -/
def wrap_demo : apu_s :=
  { apu_clear ntsc_ctx with framecnt := { zero_framecnt with count := 32767 } }

/-- The argument `apuctx->cpu_cycles>>16` that `apu_output` passes to `apu_process`. -/
def output_cycles (s : apu_s) : Nat := (add_cycles s).cpu_cycles >>> 16

/-- Sum of the arguments passed to `apu_process` by `n` consecutive calls of
`apu_output`. -/
def total_cycles (bus : Bus) : Nat → apu_s → Nat
  | 0, _ => 0
  | n + 1, s => output_cycles s + total_cycles bus n (apu_output bus s).2

/-- The context after `n` consecutive calls of `apu_output`. -/
def outputs (bus : Bus) : Nat → apu_s → apu_s
  | 0, s => s
  | n + 1, s => outputs bus n (apu_output bus s).2

/-- The NTSC context two CPU cycles after reset; no frame-counter reset is pending. -/
def parity_demo : apu_s := apu_process zero_bus 2 (apu_reset ntsc_ctx)

/-- Reset, then `$4015 = m`, `$4003 = d1`, `$4007 = d2`, `$400B = d3`, `$400F = d4`. -/
def length_loaded (m d1 d2 d3 d4 : Nat) (s : apu_s) : apu_s :=
  apu_write 0x400F d4 (apu_write 0x400B d3 (apu_write 0x4007 d2 (apu_write 0x4003 d1
    (apu_write 0x4015 m (apu_reset s)))))

/-- A bankswitched bus with bank register 0 holding 16, no padding, and the image
`data`. -/
def bank_demo (data : List Nat) : Bus :=
  { zero_bus with bankswitch := [16, 0, 0, 0, 0, 0, 0, 0], banked := true,
                  bank_padding := 0, nsf_data := data }

/-- The envelope output follows its source: `out` is `volperiod` under constant
volume and `counter` otherwise. -/
def env_follows (e : apuenvelope_s) : Prop :=
  e.out = if e.const_vol then e.volperiod else e.counter

instance (e : apuenvelope_s) : Decidable (env_follows e) := by
  unfold env_follows
  infer_instance

/-- The three envelopes follow their sources. -/
def env_out_ok (s : apu_s) : Prop :=
  env_follows s.pulse1.env ∧ env_follows s.pulse2.env ∧ env_follows s.noise.env

instance (s : apu_s) : Decidable (env_out_ok s) := by
  unfold env_out_ok
  infer_instance

/-- Reset of the NTSC context, then `$4000 = 0x1F` (constant volume 15). -/
def const_vol_demo : apu_s := apu_write 0x4000 0x1F (apu_reset ntsc_ctx)

/-- The samples returned by the `apu_output` calls of a sequence of calls. -/
def samples : List Op → apu_s → List Int
  | [], _ => []
  | Op.write addr data :: ops, s => samples ops (step_op (Op.write addr data) s)
  | Op.read addr :: ops, s => samples ops (step_op (Op.read addr) s)
  | Op.process bus n :: ops, s => samples ops (step_op (Op.process bus n) s)
  | Op.output bus :: ops, s => (apu_output bus s).1 :: samples ops (step_op (Op.output bus) s)

/-- Pulse 1 is enabled, its loop/halt flag is set and its length counter is `c`. -/
def pulse1_held (c : Nat) (s : apu_s) : Prop :=
  s.pulse1.enabled = true ∧ s.pulse1.env.loop_halt = true ∧ s.pulse1.counter = c

/-- Reset, then `$4015 = 0x01`, `$4003 = 0x08`, `$4000 = 0x30`, `$4002 = 0x00`,
`$4003 = 0x00`. -/
def hold_scenario (s : apu_s) : apu_s :=
  apu_write 0x4003 0x00 (apu_write 0x4002 0x00 (apu_write 0x4000 0x30
    (apu_write 0x4003 0x08 (apu_write 0x4015 0x01 (apu_reset s)))))

/-- The context after `k` half-frame clocks. -/
def half_frames : Nat → apu_s → apu_s
  | 0, s => s
  | k + 1, s => half_frames k (apu_half_frame s)

/-- Reset, then `$4015 = 0x01`, `$4003 = 0x00` (length table entry 0). -/
def decay_scenario (s : apu_s) : apu_s :=
  apu_write 0x4003 0x00 (apu_write 0x4015 0x01 (apu_reset s))

/-- A pulse channel that is enabled with halt clear; its length counter is a byte. -/
def pulse_running (p : apupulse_s) : Prop :=
  p.enabled = true ∧ p.env.loop_halt = false ∧ p.counter ≤ 255

/-- The noise timer block of `apu_process` on the pair (timer, shift register), for
mode `m` and reload value `p`. -/
def noise_tick (m : Bool) (p : Nat) (ts : Nat × Nat) : Nat × Nat :=
  if ts.1 ≠ 0 then ((ts.1 - 1) % 4096, ts.2) else (p, noisegen m ts.2)

/-- The pair (timer, shift register) after the loop indices `c .. c + k - 1`; the
noise timer runs on the odd ones. -/
def noise_ticks (m : Bool) (p : Nat) : Nat → Nat → Nat × Nat → Nat × Nat
  | _, 0, ts => ts
  | c, k + 1, ts =>
    noise_ticks m p (c + 1) k (if (c &&& 1) ≠ 0 then noise_tick m p ts else ts)

/-- The reference LFSR of the specification stepped `k` times. -/
def lfsr_iter (mode : Bool) : Nat → Nat → Nat
  | 0, s => s
  | k + 1, s => lfsr_iter mode k (lfsr_step_spec mode s)

/-- Reset, then `$400E = 0x00` (mode 0, period index 0), `$400F = d` (length load). -/
def noise_scenario (d : Nat) (s : apu_s) : apu_s :=
  apu_write 0x400F d (apu_write 0x400E 0x00 (apu_reset s))

/-- The noise record has mode `m`, reload value `p`, and the given timer and shift
register. -/
def noise_core (m : Bool) (p : Nat) (ts : Nat × Nat) (s : apu_s) : Prop :=
  s.noise.mode = m ∧ s.noise.period_actual = p ∧ s.noise.timer = ts.1
  ∧ s.noise.shiftreg = ts.2

/-- Reset, then `$4001 = 0x81` (sweep enabled, period 0, negate 0, shift 1),
`$4002 = 0x00`, `$4003 = 0x01` (timer period 0x100). -/
def sweep_scenario (s : apu_s) : apu_s :=
  apu_write 0x4003 0x01 (apu_write 0x4002 0x00 (apu_write 0x4001 0x81 (apu_reset s)))

/-- Reset of the NTSC context, then `$4012 = 0x00`, `$4013 = 0x00` (one byte at
0xC000), `$4015 = 0x10` (DMC control). -/
def dmc_demo : apu_s :=
  apu_write 0x4015 0x10 (apu_write 0x4013 0x00 (apu_write 0x4012 0x00 (apu_reset ntsc_ctx)))

/-- The frame count is at most the terminal value of the current mode. -/
def frame_ok (s : apu_s) : Prop :=
  s.framecnt.count ≤ frame_terminal s.framecnt.mode

/-! ## Preservation of a property along the calls -/

theorem frame_clock_preserves (P : apu_s → Prop)
    (hq : ∀ s, P s → P (apu_quarter_frame s))
    (hh : ∀ s, P s → P (apu_half_frame s))
    (hf : ∀ s f, P s → P { s with framecnt := f })
    (s : apu_s) (h : P s) : P (frame_clock s) := by
  have hcu : ∀ t, P t → P (clear_updated t) := by
    intro t ht
    unfold clear_updated
    split_ifs
    · exact hf _ _ ht
    · exact ht
  have hev : P (frame_events s) := by
    unfold frame_events
    split_ifs <;> first | exact hcu _ (hh _ (hq _ h)) | exact hq _ h | exact h
  exact hf _ _ hev

theorem apu_cycle_preserves (P : apu_s → Prop) (bus : Bus)
    (hq : ∀ s, P s → P (apu_quarter_frame s))
    (hh : ∀ s, P s → P (apu_half_frame s))
    (hf : ∀ s f, P s → P { s with framecnt := f })
    (hw : ∀ s, P s → P (wave_timers s))
    (he : ∀ s, P s → P (every_cycle_phase bus s))
    (c : Nat) (s : apu_s) (h : P s) : P (apu_cycle bus c s) := by
  have h1 : P (frame_phase c s) := by
    unfold frame_phase
    split_ifs
    · exact frame_clock_preserves P hq hh hf s h
    · exact h
  have h2 : P (timer_phase c (frame_phase c s)) := by
    unfold timer_phase
    split_ifs
    · exact hw _ h1
    · exact h1
  exact he _ h2

theorem apu_process_from_preserves (P : apu_s → Prop) (bus : Bus)
    (hc : ∀ c s, P s → P (apu_cycle bus c s)) :
    ∀ (k c : Nat) (s : apu_s), P s → P (apu_process_from bus c k s)
  | 0, _, _, h => h
  | k + 1, c, s, h => apu_process_from_preserves P bus hc k (c + 1) _ (hc c s h)

theorem apu_advance_preserves (P : apu_s → Prop) (bus : Bus)
    (hc : ∀ c s, P s → P (apu_cycle bus c s))
    (hy : ∀ s n, P s → P { s with cpu_cycles := n })
    (s : apu_s) (h : P s) : P (apu_advance bus s) :=
  hy _ _ (apu_process_from_preserves P bus hc _ 0 _ (hy _ _ h))

theorem step_op_preserves (P : apu_s → Prop)
    (hw : ∀ addr data s, P s → P (apu_write addr data s))
    (hc : ∀ bus c s, P s → P (apu_cycle bus c s))
    (hy : ∀ s n, P s → P { s with cpu_cycles := n })
    (o : Op) (s : apu_s) (h : P s) : P (step_op o s) := by
  cases o with
  | write addr data => exact hw _ _ s h
  | read addr =>
    show P (apu_read (addr % 65536) s).2
    unfold apu_read
    split_ifs <;> exact h
  | process bus n => exact apu_process_from_preserves P bus (hc bus) _ 0 s h
  | output bus => exact apu_advance_preserves P bus (hc bus) hy s h

theorem run_preserves (P : apu_s → Prop)
    (hw : ∀ addr data s, P s → P (apu_write addr data s))
    (hc : ∀ bus c s, P s → P (apu_cycle bus c s))
    (hy : ∀ s n, P s → P { s with cpu_cycles := n }) :
    ∀ (ops : List Op) (s : apu_s), P s → P (run ops s)
  | [], _, h => h
  | o :: ops, s, h =>
    run_preserves P hw hc hy ops (step_op o s) (step_op_preserves P hw hc hy o s h)

/-! ## Tables and channel outputs -/

theorem getD_le_of_forall (l : List Nat) (b i : Nat) (h : ∀ x ∈ l, x ≤ b) :
    l.getD i 0 ≤ b := by
  by_cases hi : i < l.length
  · rw [List.getD_eq_getElem l 0 hi]
    exact h _ (List.getElem_mem hi)
  · rw [List.getD_eq_default l 0 (by omega)]
    exact Nat.zero_le b

theorem triseq_le (i : Nat) : triseq.getD i 0 ≤ 15 :=
  getD_le_of_forall triseq 15 i (by decide)

theorem length_lut_le (i : Nat) : length_lut.getD i 0 ≤ 254 :=
  getD_le_of_forall length_lut 254 i (by decide)

theorem pulseseq_le (d ph : Nat) : (pulseseq.getD d []).getD ph 0 ≤ 1 := by
  apply getD_le_of_forall
  by_cases hd : d < pulseseq.length
  · rw [List.getD_eq_getElem pulseseq [] hd]
    have hall : ∀ row ∈ pulseseq, ∀ x ∈ row, x ≤ 1 := by decide
    exact hall _ (List.getElem_mem hd)
  · rw [List.getD_eq_default pulseseq [] (by omega)]
    intro x hx
    cases hx

theorem pulse_out_le (p : apupulse_s) (h : p.env.out < 16) : pulse_out p ≤ 15 := by
  unfold pulse_out
  split_ifs
  · exact Nat.zero_le _
  · refine le_trans (Nat.mod_le _ _) ?_
    have h1 := pulseseq_le p.duty p.phase
    have h2 : b2n (decide (p.counter > 0)) ≤ 1 := by unfold b2n; split_ifs <;> omega
    calc (pulseseq.getD p.duty []).getD p.phase 0 * p.env.out * b2n (decide (p.counter > 0))
        ≤ 1 * 15 * 1 := Nat.mul_le_mul (Nat.mul_le_mul h1 (by omega)) h2
      _ = 15 := by norm_num

theorem noise_out_le (n : apunoise_s) (h : n.env.out < 16) : noise_out n ≤ 15 := by
  unfold noise_out
  refine le_trans (Nat.mod_le _ _) ?_
  have h1 : n.shiftreg &&& 1 ≤ 1 := Nat.and_le_right
  have h2 : b2n (decide (n.counter > 0)) ≤ 1 := by unfold b2n; split_ifs <;> omega
  calc (n.shiftreg &&& 1) * n.env.out * b2n (decide (n.counter > 0))
      ≤ 1 * 15 * 1 := Nat.mul_le_mul (Nat.mul_le_mul h1 (by omega)) h2
    _ = 15 := by norm_num

theorem tri_out_le (t : aputri_s) : tri_out t ≤ 15 := by
  unfold tri_out
  split_ifs
  · omega
  · exact triseq_le _
theorem to_int32_mod (a : Nat) (c : Int) :
    to_int32 (((a % 2 ^ 32 : Nat) : Int) - c) = to_int32 ((a : Int) - c) := by
  unfold to_int32
  push_cast
  omega

theorem tnd_index_eq (s : apu_s) :
    tnd_index s = 3 * tri_out s.tri + 2 * noise_out s.noise + dmc_out s.dmc := by
  unfold tnd_index
  simp only [Nat.shiftLeft_eq]
  omega

/-! ## Fields left alone by the cycle steps -/

theorem envelope_clock_wf (e : apuenvelope_s) (h : env_wf e) : env_wf (envelope_clock e) := by
  obtain ⟨h1, h2, h3, h4⟩ := h
  unfold envelope_clock envelope_out envelope_step env_wf
  split_ifs <;> simp_all <;> omega

@[simp] theorem pulse_timer_env (p : apupulse_s) : (pulse_timer p).env = p.env := by
  unfold pulse_timer
  split_ifs <;> rfl

@[simp] theorem noise_timer_env (n : apunoise_s) : (noise_timer n).env = n.env := by
  unfold noise_timer apu_noisegen
  split_ifs <;> rfl

@[simp] theorem sweep_clock_env1 (p : apupulse_s) :
    (sweep_clock apu_calcsweep_pulse1 p).env = p.env := by
  unfold sweep_clock apu_calcsweep_pulse1
  split_ifs <;> rfl

@[simp] theorem sweep_clock_env2 (p : apupulse_s) :
    (sweep_clock apu_calcsweep_pulse2 p).env = p.env := by
  unfold sweep_clock apu_calcsweep_pulse2
  split_ifs <;> rfl

@[simp] theorem dmc_reader_counter (bus : Bus) (d : apudmc_s) :
    (dmc_reader bus d).counter = d.counter := by
  unfold dmc_reader dmc_fetch
  split_ifs <;> rfl

theorem dmc_adjust_counter_lt (d : apudmc_s) (h : d.counter < 128) :
    (dmc_adjust d).counter < 128 := by
  unfold dmc_adjust
  split_ifs
  · show ((dmc_delta d.counter d.shiftreg) % 128).toNat < 128
    omega
  · exact h

theorem dmc_output_counter_lt (d : apudmc_s) (h : d.counter < 128) :
    (dmc_output d).counter < 128 := by
  unfold dmc_output
  split_ifs
  · exact h
  · show (dmc_adjust (dmc_reload { d with timer := d.rate_actual })).counter < 128
    apply dmc_adjust_counter_lt
    unfold dmc_reload
    split_ifs <;> exact h

theorem mix_wf_cycle (bus : Bus) (c : Nat) (s : apu_s) (h : mix_wf s) :
    mix_wf (apu_cycle bus c s) := by
  refine apu_cycle_preserves mix_wf bus ?_ ?_ ?_ ?_ ?_ c s h
  · rintro t ⟨h1, h2, h3, h4⟩
    exact ⟨envelope_clock_wf _ h1, envelope_clock_wf _ h2, envelope_clock_wf _ h3, h4⟩
  · rintro t ⟨h1, h2, h3, h4⟩
    refine ⟨?_, ?_, h3, h4⟩
    · show env_wf (sweep_clock apu_calcsweep_pulse1 (pulse_length_clock t.pulse1)).env
      rw [sweep_clock_env1]; exact h1
    · show env_wf (sweep_clock apu_calcsweep_pulse2 (pulse_length_clock t.pulse2)).env
      rw [sweep_clock_env2]; exact h2
  · intro t f ht
    exact ht
  · rintro t ⟨h1, h2, h3, h4⟩
    refine ⟨?_, ?_, ?_, h4⟩
    · show env_wf (pulse_timer t.pulse1).env
      rw [pulse_timer_env]; exact h1
    · show env_wf (pulse_timer t.pulse2).env
      rw [pulse_timer_env]; exact h2
    · show env_wf (noise_timer t.noise).env
      rw [noise_timer_env]; exact h3
  · rintro t ⟨h1, h2, h3, h4⟩
    refine ⟨h1, h2, h3, ?_⟩
    show (dmc_output (dmc_reader bus t.dmc)).counter < 128
    apply dmc_output_counter_lt
    rw [dmc_reader_counter]; exact h4

theorem luts_cycle (L1 L2 : List Nat) (bus : Bus) (c : Nat) (s : apu_s)
    (h : s.pulse_mix_lut = L1 ∧ s.tnd_mix_lut = L2) :
    (apu_cycle bus c s).pulse_mix_lut = L1 ∧ (apu_cycle bus c s).tnd_mix_lut = L2 :=
  apu_cycle_preserves (fun t => t.pulse_mix_lut = L1 ∧ t.tnd_mix_lut = L2) bus
    (fun _ ht => ht) (fun _ ht => ht) (fun _ _ ht => ht) (fun _ ht => ht) (fun _ ht => ht)
    c s h

theorem luts_advance (bus : Bus) (s : apu_s) :
    (apu_advance bus s).pulse_mix_lut = s.pulse_mix_lut
    ∧ (apu_advance bus s).tnd_mix_lut = s.tnd_mix_lut :=
  apu_advance_preserves
    (fun t => t.pulse_mix_lut = s.pulse_mix_lut ∧ t.tnd_mix_lut = s.tnd_mix_lut) bus
    (luts_cycle s.pulse_mix_lut s.tnd_mix_lut bus) (fun _ _ ht => ht) s ⟨rfl, rfl⟩

theorem mix_wf_of_apu_wf (s : apu_s) (h : apu_wf s) : mix_wf s := by
  obtain ⟨-, -, hp1, hp2, -, hn, hd, -⟩ := h
  exact ⟨hp1.2.1, hp2.2.1, hn.1, hd.2.2.2.2.2.2.2.2.1⟩

theorem mix_wf_advance (bus : Bus) (s : apu_s) (h : mix_wf s) : mix_wf (apu_advance bus s) :=
  apu_advance_preserves mix_wf bus (mix_wf_cycle bus) (fun _ _ ht => ht) s h

/-! ## Reset -/

/-- The context left by `apu_reset`, in closed form. -/
theorem apu_reset_eq (s : apu_s) : apu_reset s =
    { apu_clear s with
      regs := List.replicate 21 0 ++ [0x0f, 0, 0x40]
      pulse1 := { zero_pulse with enabled := true }
      pulse2 := { zero_pulse with enabled := true }
      tri := { zero_tri with enabled := true }
      noise := { zero_noise with enabled := true, shiftreg := 1 }
      framecnt := { zero_framecnt with int_inhibit := true, updated := true } } :=
  rfl

/-- Layout of the status byte assembled by `apu_read`. -/
theorem status_bits (a b c d e f : Bool) :
    Nat.testBit (((b2n a <<< 7) ||| (b2n b <<< 6) ||| (b2n c <<< 3) ||| (b2n d <<< 2)
      ||| (b2n e <<< 1) ||| b2n f) % 256) 7 = a
    ∧ Nat.testBit (((b2n a <<< 7) ||| (b2n b <<< 6) ||| (b2n c <<< 3) ||| (b2n d <<< 2)
      ||| (b2n e <<< 1) ||| b2n f) % 256) 6 = b
    ∧ Nat.testBit (((b2n a <<< 7) ||| (b2n b <<< 6) ||| (b2n c <<< 3) ||| (b2n d <<< 2)
      ||| (b2n e <<< 1) ||| b2n f) % 256) 5 = false
    ∧ Nat.testBit (((b2n a <<< 7) ||| (b2n b <<< 6) ||| (b2n c <<< 3) ||| (b2n d <<< 2)
      ||| (b2n e <<< 1) ||| b2n f) % 256) 4 = false
    ∧ Nat.testBit (((b2n a <<< 7) ||| (b2n b <<< 6) ||| (b2n c <<< 3) ||| (b2n d <<< 2)
      ||| (b2n e <<< 1) ||| b2n f) % 256) 3 = c
    ∧ Nat.testBit (((b2n a <<< 7) ||| (b2n b <<< 6) ||| (b2n c <<< 3) ||| (b2n d <<< 2)
      ||| (b2n e <<< 1) ||| b2n f) % 256) 2 = d
    ∧ Nat.testBit (((b2n a <<< 7) ||| (b2n b <<< 6) ||| (b2n c <<< 3) ||| (b2n d <<< 2)
      ||| (b2n e <<< 1) ||| b2n f) % 256) 1 = e
    ∧ Nat.testBit (((b2n a <<< 7) ||| (b2n b <<< 6) ||| (b2n c <<< 3) ||| (b2n d <<< 2)
      ||| (b2n e <<< 1) ||| b2n f) % 256) 0 = f := by
  revert a b c d e f
  decide

/-! ## Case analysis of `apu_write` -/

theorem apu_write_preserves (P : apu_s → Prop)
    (hregs : ∀ s r, P s → P { s with regs := r })
    (hp1 : ∀ s data, P s →
      P { s with pulse1 := write_dutyvol data s.pulse1 }
      ∧ P { s with pulse1 := write_sweep data s.pulse1 }
      ∧ P { s with pulse1 := apu_calcsweep_pulse1 (write_tmrl data s.pulse1) }
      ∧ P { s with pulse1 :=
          write_tmrh_rest data (apu_calcsweep_pulse1 (write_tmrh_period data s.pulse1)) })
    (hp2 : ∀ s data, P s →
      P { s with pulse2 := write_dutyvol data s.pulse2 }
      ∧ P { s with pulse2 := write_sweep data s.pulse2 }
      ∧ P { s with pulse2 := apu_calcsweep_pulse2 (write_tmrl data s.pulse2) }
      ∧ P { s with pulse2 :=
          write_tmrh_rest data (apu_calcsweep_pulse2 (write_tmrh_period data s.pulse2)) })
    (ht : ∀ s data, P s →
      P { s with tri := write_tricounter data s.tri }
      ∧ P { s with tri := { s.tri with
          timer_period := ((s.tri.timer_period &&& 0x0700) ||| data) % 2048 } }
      ∧ P { s with tri := write_tritmrh data s.tri })
    (hn : ∀ s data, P s →
      P { s with noise := { s.noise with env := { s.noise.env with
          loop_halt := BIT data 5
          const_vol := BIT data 4
          volperiod := data &&& 0x0F } } }
      ∧ P { s with noise := { s.noise with
          mode := BIT data 7
          period := data &&& 0x0F
          period_actual := (s.noise_periods.getD (data &&& 0x0F) 0) % 4096 } }
      ∧ P { s with noise := write_noiselcl data s.noise })
    (hd : ∀ s data, P s →
      P { s with dmc := { s.dmc with
          irq := BIT data 7
          loop := BIT data 6
          rate := data &&& 0x0f
          rate_actual := (s.dmc_periods.getD (data &&& 0x0f) 0) % 512 } }
      ∧ P { s with dmc := { s.dmc with counter := data &&& 0x7f } }
      ∧ P { s with dmc := { s.dmc with
          address := ((data <<< 6) ||| 0xC000) % 65536
          addresscur := ((data <<< 6) ||| 0xC000) % 65536 } }
      ∧ P { s with dmc := { s.dmc with
          length := ((data <<< 4) ||| 1) % 4096
          bytesleft := ((data <<< 4) ||| 1) % 4096 } })
    (hs : ∀ s data, P s →
      P { s with
          dmc := { s.dmc with control := BIT data 4 }
          noise := { s.noise with enabled := BIT data 3 }
          tri := { s.tri with enabled := BIT data 2 }
          pulse2 := { s.pulse2 with enabled := BIT data 1 }
          pulse1 := { s.pulse1 with enabled := BIT data 0 } })
    (hf : ∀ s data, P s →
      P { s with framecnt := { s.framecnt with
          count := 0
          mode := BIT data 7
          int_inhibit := BIT data 6
          updated := true } })
    (addr data : Nat) (s : apu_s) (h : P s) : P (apu_write addr data s) := by
  have hr := hregs s (s.regs.set (addr &&& 0x1F) data) h
  unfold apu_write
  by_cases c : addr = 0x4000
  · rw [if_pos c]
    exact (hp1 _ data hr).1
  rw [if_neg c]
  clear c
  by_cases c : addr = 0x4001
  · rw [if_pos c]
    exact (hp1 _ data hr).2.1
  rw [if_neg c]
  clear c
  by_cases c : addr = 0x4002
  · rw [if_pos c]
    exact (hp1 _ data hr).2.2.1
  rw [if_neg c]
  clear c
  by_cases c : addr = 0x4003
  · rw [if_pos c]
    exact (hp1 _ data hr).2.2.2
  rw [if_neg c]
  clear c
  by_cases c : addr = 0x4004
  · rw [if_pos c]
    exact (hp2 _ data hr).1
  rw [if_neg c]
  clear c
  by_cases c : addr = 0x4005
  · rw [if_pos c]
    exact (hp2 _ data hr).2.1
  rw [if_neg c]
  clear c
  by_cases c : addr = 0x4006
  · rw [if_pos c]
    exact (hp2 _ data hr).2.2.1
  rw [if_neg c]
  clear c
  by_cases c : addr = 0x4007
  · rw [if_pos c]
    exact (hp2 _ data hr).2.2.2
  rw [if_neg c]
  clear c
  by_cases c : addr = 0x4008
  · rw [if_pos c]
    exact (ht _ data hr).1
  rw [if_neg c]
  clear c
  by_cases c : addr = 0x400A
  · rw [if_pos c]
    exact (ht _ data hr).2.1
  rw [if_neg c]
  clear c
  by_cases c : addr = 0x400B
  · rw [if_pos c]
    exact (ht _ data hr).2.2
  rw [if_neg c]
  clear c
  by_cases c : addr = 0x400C
  · rw [if_pos c]
    exact (hn _ data hr).1
  rw [if_neg c]
  clear c
  by_cases c : addr = 0x400E
  · rw [if_pos c]
    exact (hn _ data hr).2.1
  rw [if_neg c]
  clear c
  by_cases c : addr = 0x400F
  · rw [if_pos c]
    exact (hn _ data hr).2.2
  rw [if_neg c]
  clear c
  by_cases c : addr = 0x4010
  · rw [if_pos c]
    exact (hd _ data hr).1
  rw [if_neg c]
  clear c
  by_cases c : addr = 0x4011
  · rw [if_pos c]
    exact (hd _ data hr).2.1
  rw [if_neg c]
  clear c
  by_cases c : addr = 0x4012
  · rw [if_pos c]
    exact (hd _ data hr).2.2.1
  rw [if_neg c]
  clear c
  by_cases c : addr = 0x4013
  · rw [if_pos c]
    exact (hd _ data hr).2.2.2
  rw [if_neg c]
  clear c
  by_cases c : addr = 0x4015
  · rw [if_pos c]
    exact hs _ data hr
  rw [if_neg c]
  clear c
  by_cases c : addr = 0x4017
  · rw [if_pos c]
    exact hf _ data hr
  rw [if_neg c]
  clear c
  exact h

/-! ## Length counters -/

theorem length_clock_le (e h : Bool) (c : Nat) : length_clock e h c ≤ c := by
  unfold length_clock
  split_ifs <;> omega

@[simp] theorem sweep_clock_counter1 (p : apupulse_s) :
    (sweep_clock apu_calcsweep_pulse1 p).counter = p.counter := by
  unfold sweep_clock apu_calcsweep_pulse1
  split_ifs <;> rfl

@[simp] theorem sweep_clock_counter2 (p : apupulse_s) :
    (sweep_clock apu_calcsweep_pulse2 p).counter = p.counter := by
  unfold sweep_clock apu_calcsweep_pulse2
  split_ifs <;> rfl

@[simp] theorem pulse_timer_counter (p : apupulse_s) : (pulse_timer p).counter = p.counter := by
  unfold pulse_timer
  split_ifs <;> rfl

@[simp] theorem noise_timer_counter (n : apunoise_s) : (noise_timer n).counter = n.counter := by
  unfold noise_timer apu_noisegen
  split_ifs <;> rfl

@[simp] theorem tri_timer_counter (t : aputri_s) : (tri_timer t).counter = t.counter := by
  unfold tri_timer
  split_ifs <;> rfl

@[simp] theorem quarter_tri_counter (t : aputri_s) :
    (halt_clear (linear_clock t)).counter = t.counter := by
  unfold halt_clear linear_clock
  split_ifs <;> rfl

theorem write_tmrh_rest_le (data : Nat) (p : apupulse_s) (h : p.counter ≤ 254) :
    (write_tmrh_rest data p).counter ≤ 254 := by
  show (if p.enabled then length_lut.getD (data >>> 3) 0 else p.counter) ≤ 254
  split_ifs
  · exact length_lut_le _
  · exact h

theorem write_tritmrh_le (data : Nat) (t : aputri_s) (h : t.counter ≤ 254) :
    (write_tritmrh data t).counter ≤ 254 := by
  show (if t.enabled then length_lut.getD (data >>> 3) 0 else t.counter) ≤ 254
  split_ifs
  · exact length_lut_le _
  · exact h

theorem write_noiselcl_le (data : Nat) (n : apunoise_s) (h : n.counter ≤ 254) :
    (write_noiselcl data n).counter ≤ 254 := by
  show (if n.enabled then length_lut.getD (data >>> 3) 0 else n.counter) ≤ 254
  split_ifs
  · exact length_lut_le _
  · exact h

theorem len_ok_write (addr data : Nat) (s : apu_s) (h : len_ok s) :
    len_ok (apu_write addr data s) := by
  refine apu_write_preserves len_ok ?_ ?_ ?_ ?_ ?_ ?_ ?_ ?_ addr data s h
  · intro t r ht
    exact ht
  · rintro t d ⟨h1, h2, h3, h4⟩
    exact ⟨⟨h1, h2, h3, h4⟩, ⟨h1, h2, h3, h4⟩, ⟨h1, h2, h3, h4⟩,
      ⟨write_tmrh_rest_le d _ h1, h2, h3, h4⟩⟩
  · rintro t d ⟨h1, h2, h3, h4⟩
    exact ⟨⟨h1, h2, h3, h4⟩, ⟨h1, h2, h3, h4⟩, ⟨h1, h2, h3, h4⟩,
      ⟨h1, write_tmrh_rest_le d _ h2, h3, h4⟩⟩
  · rintro t d ⟨h1, h2, h3, h4⟩
    exact ⟨⟨h1, h2, h3, h4⟩, ⟨h1, h2, h3, h4⟩, ⟨h1, h2, write_tritmrh_le d _ h3, h4⟩⟩
  · rintro t d ⟨h1, h2, h3, h4⟩
    exact ⟨⟨h1, h2, h3, h4⟩, ⟨h1, h2, h3, h4⟩, ⟨h1, h2, h3, write_noiselcl_le d _ h4⟩⟩
  · rintro t d ⟨h1, h2, h3, h4⟩
    exact ⟨⟨h1, h2, h3, h4⟩, ⟨h1, h2, h3, h4⟩, ⟨h1, h2, h3, h4⟩, ⟨h1, h2, h3, h4⟩⟩
  · rintro t d ⟨h1, h2, h3, h4⟩
    exact ⟨h1, h2, h3, h4⟩
  · rintro t d ⟨h1, h2, h3, h4⟩
    exact ⟨h1, h2, h3, h4⟩

theorem len_ok_cycle (bus : Bus) (c : Nat) (s : apu_s) (h : len_ok s) :
    len_ok (apu_cycle bus c s) := by
  refine apu_cycle_preserves len_ok bus ?_ ?_ ?_ ?_ ?_ c s h
  · rintro t ⟨h1, h2, h3, h4⟩
    refine ⟨h1, h2, ?_, h4⟩
    show (halt_clear (linear_clock t.tri)).counter ≤ 254
    rw [quarter_tri_counter]; exact h3
  · rintro t ⟨h1, h2, h3, h4⟩
    refine ⟨?_, ?_, ?_, ?_⟩
    · show (sweep_clock apu_calcsweep_pulse1 (pulse_length_clock t.pulse1)).counter ≤ 254
      rw [sweep_clock_counter1]
      exact le_trans (length_clock_le _ _ _) h1
    · show (sweep_clock apu_calcsweep_pulse2 (pulse_length_clock t.pulse2)).counter ≤ 254
      rw [sweep_clock_counter2]
      exact le_trans (length_clock_le _ _ _) h2
    · exact le_trans (length_clock_le _ _ _) h3
    · exact le_trans (length_clock_le _ _ _) h4
  · intro t f ht
    exact ht
  · rintro t ⟨h1, h2, h3, h4⟩
    refine ⟨?_, ?_, h3, ?_⟩
    · show (pulse_timer t.pulse1).counter ≤ 254
      rw [pulse_timer_counter]; exact h1
    · show (pulse_timer t.pulse2).counter ≤ 254
      rw [pulse_timer_counter]; exact h2
    · show (noise_timer t.noise).counter ≤ 254
      rw [noise_timer_counter]; exact h4
  · rintro t ⟨h1, h2, h3, h4⟩
    refine ⟨h1, h2, ?_, h4⟩
    show (tri_timer t.tri).counter ≤ 254
    rw [tri_timer_counter]; exact h3

theorem len_ok_reset (s : apu_s) : len_ok (apu_reset s) := by
  rw [apu_reset_eq]
  exact ⟨Nat.zero_le _, Nat.zero_le _, Nat.zero_le _, Nat.zero_le _⟩

/-! ## Noise shift register -/

theorem feedback_lt (mode : Bool) (sr : Nat) :
    (if mode then ((sr &&& 1) ^^^ ((sr >>> 5) &&& 1)) % 65536
      else (((sr &&& 1) ^^^ ((sr >>> 1) &&& 1)) <<< 14) % 65536) < 2 ^ 15 := by
  have ha : sr &&& 1 < 2 ^ 1 := Nat.lt_succ_of_le Nat.and_le_right
  have hb5 : (sr >>> 5) &&& 1 < 2 ^ 1 := Nat.lt_succ_of_le Nat.and_le_right
  have hb1 : (sr >>> 1) &&& 1 < 2 ^ 1 := Nat.lt_succ_of_le Nat.and_le_right
  have hx5 := Nat.xor_lt_two_pow ha hb5
  have hx1 := Nat.xor_lt_two_pow ha hb1
  split_ifs
  · exact lt_of_le_of_lt (Nat.mod_le _ _) (by omega)
  · refine lt_of_le_of_lt (Nat.mod_le _ _) ?_
    rw [Nat.shiftLeft_eq]
    omega

theorem or_pos_of_left (x y : Nat) (h : 0 < x) : 0 < x ||| y := by
  obtain ⟨i, hi⟩ := Nat.ne_zero_implies_bit_true (Nat.pos_iff_ne_zero.mp h)
  apply Nat.pos_of_ne_zero
  intro hz
  have hb : (x ||| y).testBit i = true := by
    rw [Nat.testBit_or, hi]
    rfl
  rw [hz, Nat.zero_testBit] at hb
  exact Bool.noConfusion hb

theorem noisegen_ok (mode : Bool) (sr : Nat) (h0 : 0 < sr) (h1 : sr < 32768) :
    0 < noisegen mode sr ∧ noisegen mode sr < 32768 := by
  refine ⟨?_, Nat.mod_lt _ (by decide)⟩
  have hs : sr >>> 1 < 2 ^ 15 := by
    rw [Nat.shiftRight_eq_div_pow]
    omega
  have hx := Nat.or_lt_two_pow hs (feedback_lt mode sr)
  unfold noisegen
  rw [Nat.mod_eq_of_lt hx]
  by_cases h : sr = 1
  · subst h
    cases mode <;> decide
  · have h2 : 1 ≤ sr >>> 1 := by
      rw [Nat.shiftRight_eq_div_pow]
      omega
    exact or_pos_of_left _ _ h2

theorem noise_timer_shift_ok (n : apunoise_s) (h0 : 0 < n.shiftreg) (h1 : n.shiftreg < 32768) :
    0 < (noise_timer n).shiftreg ∧ (noise_timer n).shiftreg < 32768 := by
  unfold noise_timer
  split_ifs
  · exact ⟨h0, h1⟩
  · exact noisegen_ok n.mode n.shiftreg h0 h1

theorem shift_ok_write (addr data : Nat) (s : apu_s) (h : shift_ok s) :
    shift_ok (apu_write addr data s) := by
  refine apu_write_preserves shift_ok ?_ ?_ ?_ ?_ ?_ ?_ ?_ ?_ addr data s h
  · intro t r ht
    exact ht
  · intro t d ht
    exact ⟨ht, ht, ht, ht⟩
  · intro t d ht
    exact ⟨ht, ht, ht, ht⟩
  · intro t d ht
    exact ⟨ht, ht, ht⟩
  · intro t d ht
    exact ⟨ht, ht, ht⟩
  · intro t d ht
    exact ⟨ht, ht, ht, ht⟩
  · intro t d ht
    exact ht
  · intro t d ht
    exact ht

theorem shift_ok_cycle (bus : Bus) (c : Nat) (s : apu_s) (h : shift_ok s) :
    shift_ok (apu_cycle bus c s) :=
  apu_cycle_preserves shift_ok bus (fun _ ht => ht) (fun _ ht => ht) (fun _ _ ht => ht)
    (fun t ht => noise_timer_shift_ok t.noise ht.1 ht.2) (fun _ ht => ht) c s h

/-! ## DMC delta counter -/

theorem dmc_delta_range (c sr : Nat) (h : c ≤ 127) :
    0 ≤ dmc_delta c sr ∧ dmc_delta c sr ≤ 127
    ∧ (dmc_delta c sr = (c : Int)
       ∨ (dmc_delta c sr = (c : Int) - 2 ∧ c > 1)
       ∨ (dmc_delta c sr = (c : Int) + 2 ∧ c < 126)) := by
  unfold dmc_delta
  split_ifs with h1 h2
  · refine ⟨by omega, by omega, Or.inr (Or.inl ⟨rfl, h1.1⟩)⟩
  · refine ⟨by omega, by omega, Or.inr (Or.inr ⟨rfl, h2.1⟩)⟩
  · refine ⟨by omega, by omega, Or.inl rfl⟩

theorem dmc_adjust_counter (d : apudmc_s) (h : d.counter ≤ 127) :
    ((dmc_adjust d).counter : Int)
      = if d.silence = 0 then dmc_delta d.counter d.shiftreg else (d.counter : Int) := by
  have hr := dmc_delta_range d.counter d.shiftreg h
  unfold dmc_adjust
  split_ifs
  · show (((dmc_delta d.counter d.shiftreg) % 128).toNat : Int) = _
    omega
  · rfl

theorem dmc_reload_counter (d : apudmc_s) : (dmc_reload d).counter = d.counter := by
  unfold dmc_reload
  split_ifs <;> rfl

theorem dmc_output_counter_step (d : apudmc_s) (h : d.counter ≤ 127) :
    ((dmc_output d).counter : Int) = d.counter
    ∨ ((dmc_output d).counter : Int) = (d.counter : Int) - 2
    ∨ ((dmc_output d).counter : Int) = (d.counter : Int) + 2 := by
  unfold dmc_output
  split_ifs
  · exact Or.inl rfl
  · have hc : (dmc_reload { d with timer := d.rate_actual }).counter = d.counter :=
      dmc_reload_counter _
    have hs : (dmc_shift (dmc_adjust (dmc_reload { d with timer := d.rate_actual }))).counter
        = (dmc_adjust (dmc_reload { d with timer := d.rate_actual })).counter := rfl
    have ha := dmc_adjust_counter (dmc_reload { d with timer := d.rate_actual })
      (by rw [hc]; exact h)
    have hr := dmc_delta_range (dmc_reload { d with timer := d.rate_actual }).counter
      (dmc_reload { d with timer := d.rate_actual }).shiftreg (by rw [hc]; exact h)
    rw [hs, ha]
    rw [hc] at hr
    split_ifs
    · rw [hc]
      rcases hr.2.2 with h0 | h0 | h0
      · exact Or.inl h0
      · exact Or.inr (Or.inl h0.1)
      · exact Or.inr (Or.inr h0.1)
    · rw [hc]
      exact Or.inl rfl

theorem dmc_ok_write (addr data : Nat) (s : apu_s) (h : dmc_ok s) :
    dmc_ok (apu_write addr data s) := by
  have hm : data &&& 0x7f < 128 := Nat.lt_succ_of_le Nat.and_le_right
  refine apu_write_preserves dmc_ok ?_ ?_ ?_ ?_ ?_ ?_ ?_ ?_ addr data s h
  · intro t r ht
    exact ht
  · intro t d ht
    exact ⟨ht, ht, ht, ht⟩
  · intro t d ht
    exact ⟨ht, ht, ht, ht⟩
  · intro t d ht
    exact ⟨ht, ht, ht⟩
  · intro t d ht
    exact ⟨ht, ht, ht⟩
  · intro t d ht
    exact ⟨ht, Nat.lt_succ_of_le Nat.and_le_right, ht, ht⟩
  · intro t d ht
    exact ht
  · intro t d ht
    exact ht

theorem dmc_ok_cycle (bus : Bus) (c : Nat) (s : apu_s) (h : dmc_ok s) :
    dmc_ok (apu_cycle bus c s) :=
  apu_cycle_preserves dmc_ok bus (fun _ ht => ht) (fun _ ht => ht) (fun _ _ ht => ht)
    (fun _ ht => ht)
    (fun t ht => dmc_output_counter_lt _ (by rw [dmc_reader_counter]; exact ht)) c s h

/-! ## Triangle sequencer -/

theorem length_clock_zero (e h : Bool) : length_clock e h 0 = 0 := by
  simp [length_clock]

theorem quarter_tri_phase (t : aputri_s) :
    (halt_clear (linear_clock t)).phase = t.phase
    ∧ (halt_clear (linear_clock t)).timer_period = t.timer_period := by
  unfold halt_clear linear_clock
  split_ifs <;> exact ⟨rfl, rfl⟩

theorem tri_timer_frozen (t : aputri_s) (h : t.counter = 0) : tri_timer t = t := by
  unfold tri_timer
  rw [if_neg]
  omega

theorem tri_frozen_cycle (p tp : Nat) (bus : Bus) (c : Nat) (s : apu_s)
    (h : tri_frozen p tp s) : tri_frozen p tp (apu_cycle bus c s) := by
  refine apu_cycle_preserves (tri_frozen p tp) bus ?_ ?_ ?_ ?_ ?_ c s h
  · rintro t ⟨h1, h2, h3⟩
    refine ⟨?_, ?_, ?_⟩
    · show (halt_clear (linear_clock t.tri)).counter = 0
      rw [quarter_tri_counter]; exact h1
    · show (halt_clear (linear_clock t.tri)).phase = p
      rw [(quarter_tri_phase t.tri).1]; exact h2
    · show (halt_clear (linear_clock t.tri)).timer_period = tp
      rw [(quarter_tri_phase t.tri).2]; exact h3
  · rintro t ⟨h1, h2, h3⟩
    refine ⟨?_, h2, h3⟩
    show length_clock t.tri.enabled t.tri.halt t.tri.counter = 0
    rw [h1]; exact length_clock_zero _ _
  · intro t f ht
    exact ht
  · intro t ht
    exact ht
  · rintro t ⟨h1, h2, h3⟩
    show tri_frozen p tp { t with dmc := dmc_output (dmc_reader bus t.dmc), tri := tri_timer t.tri }
    unfold tri_frozen
    show (tri_timer t.tri).counter = 0 ∧ (tri_timer t.tri).phase = p
      ∧ (tri_timer t.tri).timer_period = tp
    rw [tri_timer_frozen t.tri h1]
    exact ⟨h1, h2, h3⟩

/-! ## Frame counter -/

theorem BIT_eq_testBit (v b : Nat) : BIT v b = v.testBit b := by
  unfold BIT
  rw [Nat.testBit_to_div_mod, Nat.and_one_is_mod, Nat.shiftRight_eq_div_pow]
  rcases Nat.mod_two_eq_zero_or_one (v / 2 ^ b) with h | h <;> simp [h]

theorem frame_events_idle (s : apu_s) (h : s.framecnt.updated = false) :
    frame_events s =
      (if s.framecnt.count = 7456 ∨ s.framecnt.count = frame_terminal s.framecnt.mode then
        apu_half_frame (apu_quarter_frame s)
      else if s.framecnt.count = 3728 ∨ s.framecnt.count = 11185 then apu_quarter_frame s
      else s) := by
  have hc : clear_updated (apu_half_frame (apu_quarter_frame s))
      = apu_half_frame (apu_quarter_frame s) := by
    unfold clear_updated
    rw [if_neg]
    show ¬ s.framecnt.updated = true
    rw [h]
    exact Bool.false_ne_true
  unfold frame_events frame_terminal
  rw [hc]
  cases hm : s.framecnt.mode <;> simp [h]

theorem frame_events_framecnt (s : apu_s) (h : s.framecnt.updated = false) :
    (frame_events s).framecnt = s.framecnt := by
  rw [frame_events_idle s h]
  split_ifs <;> rfl

theorem frame_advance_count (f : apuframecnt_s) :
    (frame_advance f).count
      = (if f.count = frame_terminal f.mode then 0 else (f.count + 1) % 32768)
    ∧ (frame_advance f).interrupt
      = (f.interrupt || (!f.mode && decide (f.count = 14914) && !f.int_inhibit))
    ∧ (frame_advance f).mode = f.mode ∧ (frame_advance f).int_inhibit = f.int_inhibit
    ∧ (frame_advance f).updated = f.updated := by
  unfold frame_advance frame_terminal
  cases hm : f.mode <;> cases hi : f.int_inhibit <;> cases hx : f.interrupt <;>
    by_cases hc : f.count = 14914 <;> by_cases hd : f.count = 18640 <;> simp [hc, hd, hi, hx]

theorem clear_updated_flag (t : apu_s) : (clear_updated t).framecnt.updated = false := by
  unfold clear_updated
  split_ifs with h
  · rfl
  · simpa using h

/-! ## Cycle accumulator and loop index -/

theorem acc_cycle (a c : Nat) (bus : Bus) (i : Nat) (s : apu_s)
    (h : s.cpu_cycles = a ∧ s.clock_cycles_per_sample = c) :
    (apu_cycle bus i s).cpu_cycles = a ∧ (apu_cycle bus i s).clock_cycles_per_sample = c :=
  apu_cycle_preserves (fun t => t.cpu_cycles = a ∧ t.clock_cycles_per_sample = c) bus
    (fun _ ht => ht) (fun _ ht => ht) (fun _ _ ht => ht) (fun _ ht => ht) (fun _ ht => ht)
    i s h

theorem apu_advance_eq (bus : Bus) (s : apu_s) :
    apu_advance bus s = mask_cycles (apu_process bus (output_cycles s) (add_cycles s)) :=
  rfl

theorem apu_advance_acc (bus : Bus) (s : apu_s) (ha : s.cpu_cycles < 65536)
    (hc : s.clock_cycles_per_sample + 65535 < 2 ^ 32) :
    output_cycles s = (s.cpu_cycles + s.clock_cycles_per_sample) / 65536
    ∧ (apu_advance bus s).cpu_cycles = (s.cpu_cycles + s.clock_cycles_per_sample) % 65536
    ∧ (apu_advance bus s).clock_cycles_per_sample = s.clock_cycles_per_sample := by
  have hlt : s.cpu_cycles + s.clock_cycles_per_sample < 2 ^ 32 := by omega
  have h1 : (add_cycles s).cpu_cycles = s.cpu_cycles + s.clock_cycles_per_sample :=
    Nat.mod_eq_of_lt hlt
  have hp := apu_process_from_preserves
    (fun t => t.cpu_cycles = s.cpu_cycles + s.clock_cycles_per_sample
      ∧ t.clock_cycles_per_sample = s.clock_cycles_per_sample) bus
    (acc_cycle _ _ bus) (output_cycles s) 0 (add_cycles s) ⟨h1, rfl⟩
  refine ⟨?_, ?_, hp.2⟩
  · unfold output_cycles
    rw [h1, Nat.shiftRight_eq_div_pow]
  · show (apu_process bus (output_cycles s) (add_cycles s)).cpu_cycles &&& 0xFFFF = _
    rw [show (apu_process bus (output_cycles s) (add_cycles s)).cpu_cycles
        = s.cpu_cycles + s.clock_cycles_per_sample from hp.1]
    exact Nat.and_pow_two_sub_one_eq_mod _ 16

theorem outputs_acc (bus : Bus) (c : Nat) (hc : c + 65535 < 2 ^ 32) :
    ∀ (n : Nat) (s : apu_s), s.cpu_cycles < 65536 → s.clock_cycles_per_sample = c →
      total_cycles bus n s = (s.cpu_cycles + n * c) / 65536
      ∧ (outputs bus n s).cpu_cycles = (s.cpu_cycles + n * c) % 65536
      ∧ (outputs bus n s).clock_cycles_per_sample = c
  | 0, s, ha, hs => by
    refine ⟨?_, ?_, hs⟩
    · show 0 = _
      rw [Nat.zero_mul, Nat.add_zero, Nat.div_eq_of_lt ha]
    · show s.cpu_cycles = _
      rw [Nat.zero_mul, Nat.add_zero, Nat.mod_eq_of_lt ha]
  | n + 1, s, ha, hs => by
    obtain ⟨h1, h2, h3⟩ := apu_advance_acc bus s ha (by rw [hs]; exact hc)
    have hlt : (apu_advance bus s).cpu_cycles < 65536 := by
      rw [h2]; exact Nat.mod_lt _ (by decide)
    obtain ⟨i1, i2, i3⟩ := outputs_acc bus c hc n (apu_advance bus s) hlt (by rw [h3, hs])
    have e1 : total_cycles bus (n + 1) s
        = output_cycles s + total_cycles bus n (apu_advance bus s) := rfl
    have e2 : outputs bus (n + 1) s = outputs bus n (apu_advance bus s) := rfl
    rw [e1, e2, i1, i2, h1, h2, hs]
    have hm : (n + 1) * c = n * c + c := Nat.succ_mul n c
    rw [hm]
    refine ⟨?_, ?_, i3⟩ <;> omega

theorem apu_cycle_parity (bus : Bus) (c d : Nat) (s : apu_s) (h : c &&& 1 = d &&& 1) :
    apu_cycle bus c s = apu_cycle bus d s := by
  unfold apu_cycle frame_phase timer_phase
  rw [h]

theorem apu_process_from_parity (bus : Bus) :
    ∀ (k c d : Nat) (s : apu_s), c % 2 = d % 2 →
      apu_process_from bus c k s = apu_process_from bus d k s
  | 0, _, _, _, _ => rfl
  | k + 1, c, d, s, h => by
    show apu_process_from bus (c + 1) k (apu_cycle bus c s)
      = apu_process_from bus (d + 1) k (apu_cycle bus d s)
    rw [apu_cycle_parity bus c d s (by rw [Nat.and_one_is_mod, Nat.and_one_is_mod, h])]
    exact apu_process_from_parity bus k (c + 1) (d + 1) _ (by omega)

theorem apu_process_from_add (bus : Bus) :
    ∀ (a b c : Nat) (s : apu_s),
      apu_process_from bus c (a + b) s
        = apu_process_from bus (c + a) b (apu_process_from bus c a s)
  | 0, b, c, s => by
    rw [Nat.zero_add]
    rfl
  | a + 1, b, c, s => by
    have e : a + 1 + b = (a + b) + 1 := by omega
    rw [e]
    show apu_process_from bus (c + 1) (a + b) (apu_cycle bus c s) = _
    rw [apu_process_from_add bus a b (c + 1) (apu_cycle bus c s)]
    have e2 : c + 1 + a = c + (a + 1) := by omega
    rw [e2]
    rfl

/-! ## Length load and status -/

theorem length_lut_pos (i : Nat) (h : i < 32) : 0 < length_lut.getD i 0 := by
  have hall : ∀ j : Fin 32, 0 < length_lut.getD j.val 0 := by decide
  exact hall ⟨i, h⟩

theorem status_low_bits (s : apu_s) :
    Nat.testBit (apu_read 0x4015 s).1 0 = decide (s.pulse1.counter > 0)
    ∧ Nat.testBit (apu_read 0x4015 s).1 1 = decide (s.pulse2.counter > 0)
    ∧ Nat.testBit (apu_read 0x4015 s).1 2 = decide (s.tri.counter > 0)
    ∧ Nat.testBit (apu_read 0x4015 s).1 3 = decide (s.noise.counter > 0) := by
  obtain ⟨-, -, -, -, h3, h2, h1, h0⟩ :=
    status_bits s.dmc.irq s.framecnt.interrupt (decide (s.noise.counter > 0))
      (decide (s.tri.counter > 0)) (decide (s.pulse2.counter > 0))
      (decide (s.pulse1.counter > 0))
  exact ⟨h0, h1, h2, h3⟩

theorem length_loaded_counters (m d1 d2 d3 d4 : Nat) (s : apu_s) :
    (length_loaded m d1 d2 d3 d4 s).pulse1.counter
      = (if BIT m 0 then length_lut.getD (d1 >>> 3) 0 else 0)
    ∧ (length_loaded m d1 d2 d3 d4 s).pulse2.counter
      = (if BIT m 1 then length_lut.getD (d2 >>> 3) 0 else 0)
    ∧ (length_loaded m d1 d2 d3 d4 s).tri.counter
      = (if BIT m 2 then length_lut.getD (d3 >>> 3) 0 else 0)
    ∧ (length_loaded m d1 d2 d3 d4 s).noise.counter
      = (if BIT m 3 then length_lut.getD (d4 >>> 3) 0 else 0) :=
  ⟨rfl, rfl, rfl, rfl⟩

theorem loaded_bit (b : Bool) (d : Nat) (h : d < 256) :
    decide ((if b then length_lut.getD (d >>> 3) 0 else 0) > 0) = b := by
  have hi : d >>> 3 < 32 := by
    rw [Nat.shiftRight_eq_div_pow]
    omega
  have hp := length_lut_pos (d >>> 3) hi
  cases b
  · rfl
  · exact decide_eq_true hp

theorem length_clock_disabled (h : Bool) (c : Nat) : length_clock false h c = 0 := rfl

/-! ## Bankswitched reads -/

theorem bank_demo_bank :
    (((((0x8001 : Nat) : Int) - 0x8000) / 4096) % 256).toNat = 0 := by
  decide

theorem bank_demo_index :
    (((((16 * 0x1000 + (0x8001 &&& 0xFFF) : Nat) : Int) - ((0 : Nat) : Int))
      % 65536).toNat) = 1 := by
  decide

theorem bank_demo_guard (data : List Nat) :
    ¬ (0x8001 ≤ 0x8000 ||| (bank_demo data).bank_padding) := by
  show ¬ (0x8001 ≤ 0x8000 ||| 0)
  decide

theorem bank_demo_read (data : List Nat) :
    cart_read_bankswitch (bank_demo data) 0x8001 = data.getD 1 0 := by
  unfold cart_read_bankswitch
  rw [if_neg (bank_demo_guard data), bank_demo_bank]
  show read_nsf_data (bank_demo data)
    (((((16 * 0x1000 + (0x8001 &&& 0xFFF) : Nat) : Int) - ((0 : Nat) : Int))
      % 65536).toNat) = _
  rw [bank_demo_index]
  rfl

theorem bank_demo_bus_read (data : List Nat) :
    Rd6502 (bank_demo data) 0x8001 = cart_read_bankswitch (bank_demo data) 0x8001 :=
  rfl

/-! ## Envelope output -/

theorem envelope_clock_follows (e : apuenvelope_s) : env_follows (envelope_clock e) := by
  unfold envelope_clock envelope_out env_follows
  split_ifs with h <;> simp [h]

theorem env_out_ok_cycle (bus : Bus) (c : Nat) (s : apu_s) (h : env_out_ok s) :
    env_out_ok (apu_cycle bus c s) := by
  refine apu_cycle_preserves env_out_ok bus ?_ ?_ ?_ ?_ ?_ c s h
  · intro t _
    exact ⟨envelope_clock_follows _, envelope_clock_follows _, envelope_clock_follows _⟩
  · rintro t ⟨h1, h2, h3⟩
    refine ⟨?_, ?_, h3⟩
    · show env_follows (sweep_clock apu_calcsweep_pulse1 (pulse_length_clock t.pulse1)).env
      rw [sweep_clock_env1]; exact h1
    · show env_follows (sweep_clock apu_calcsweep_pulse2 (pulse_length_clock t.pulse2)).env
      rw [sweep_clock_env2]; exact h2
  · intro t f ht
    exact ht
  · rintro t ⟨h1, h2, h3⟩
    refine ⟨?_, ?_, ?_⟩
    · show env_follows (pulse_timer t.pulse1).env
      rw [pulse_timer_env]; exact h1
    · show env_follows (pulse_timer t.pulse2).env
      rw [pulse_timer_env]; exact h2
    · show env_follows (noise_timer t.noise).env
      rw [noise_timer_env]; exact h3
  · intro t ht
    exact ht

/-! ## Held and running length counters -/

@[simp] theorem envelope_clock_loop_halt (e : apuenvelope_s) :
    (envelope_clock e).loop_halt = e.loop_halt := by
  unfold envelope_clock envelope_out envelope_step
  split_ifs <;> rfl

@[simp] theorem sweep_clock_enabled1 (p : apupulse_s) :
    (sweep_clock apu_calcsweep_pulse1 p).enabled = p.enabled := by
  unfold sweep_clock apu_calcsweep_pulse1
  split_ifs <;> rfl

@[simp] theorem sweep_clock_enabled2 (p : apupulse_s) :
    (sweep_clock apu_calcsweep_pulse2 p).enabled = p.enabled := by
  unfold sweep_clock apu_calcsweep_pulse2
  split_ifs <;> rfl

@[simp] theorem pulse_timer_enabled (p : apupulse_s) : (pulse_timer p).enabled = p.enabled := by
  unfold pulse_timer
  split_ifs <;> rfl

theorem length_clock_held (c : Nat) : length_clock true true c = c := by
  simp [length_clock]

theorem pulse1_held_cycle (k : Nat) (bus : Bus) (c : Nat) (s : apu_s)
    (h : pulse1_held k s) : pulse1_held k (apu_cycle bus c s) := by
  refine apu_cycle_preserves (pulse1_held k) bus ?_ ?_ ?_ ?_ ?_ c s h
  · rintro t ⟨h1, h2, h3⟩
    refine ⟨h1, ?_, h3⟩
    show (envelope_clock t.pulse1.env).loop_halt = true
    rw [envelope_clock_loop_halt]; exact h2
  · rintro t ⟨h1, h2, h3⟩
    refine ⟨?_, ?_, ?_⟩
    · show (sweep_clock apu_calcsweep_pulse1 (pulse_length_clock t.pulse1)).enabled = true
      rw [sweep_clock_enabled1]; exact h1
    · show (sweep_clock apu_calcsweep_pulse1 (pulse_length_clock t.pulse1)).env.loop_halt = true
      rw [sweep_clock_env1]; exact h2
    · show (sweep_clock apu_calcsweep_pulse1 (pulse_length_clock t.pulse1)).counter = k
      rw [sweep_clock_counter1]
      show length_clock t.pulse1.enabled t.pulse1.env.loop_halt t.pulse1.counter = k
      rw [h1, h2, length_clock_held]; exact h3
  · intro t f ht
    exact ht
  · rintro t ⟨h1, h2, h3⟩
    refine ⟨?_, ?_, ?_⟩
    · show (pulse_timer t.pulse1).enabled = true
      rw [pulse_timer_enabled]; exact h1
    · show (pulse_timer t.pulse1).env.loop_halt = true
      rw [pulse_timer_env]; exact h2
    · show (pulse_timer t.pulse1).counter = k
      rw [pulse_timer_counter]; exact h3
  · intro t ht
    exact ht

theorem length_clock_running (c : Nat) (h : c ≤ 255) : length_clock true false c = c - 1 := by
  unfold length_clock
  by_cases hc : c = 0
  · subst hc
    simp
  · have : (c - 1) % 256 = c - 1 := Nat.mod_eq_of_lt (by omega)
    simp [hc, this]

theorem half_frame_running1 (s : apu_s) (h : pulse_running s.pulse1) :
    pulse_running (apu_half_frame s).pulse1
    ∧ (apu_half_frame s).pulse1.counter = s.pulse1.counter - 1 := by
  obtain ⟨h1, h2, h3⟩ := h
  have hc : (apu_half_frame s).pulse1.counter = s.pulse1.counter - 1 := by
    show (sweep_clock apu_calcsweep_pulse1 (pulse_length_clock s.pulse1)).counter = _
    rw [sweep_clock_counter1]
    show length_clock s.pulse1.enabled s.pulse1.env.loop_halt s.pulse1.counter = _
    rw [h1, h2, length_clock_running _ h3]
  refine ⟨⟨?_, ?_, ?_⟩, hc⟩
  · show (sweep_clock apu_calcsweep_pulse1 (pulse_length_clock s.pulse1)).enabled = true
    rw [sweep_clock_enabled1]; exact h1
  · show (sweep_clock apu_calcsweep_pulse1 (pulse_length_clock s.pulse1)).env.loop_halt = false
    rw [sweep_clock_env1]; exact h2
  · rw [hc]; omega

theorem half_frame_running2 (s : apu_s) (h : pulse_running s.pulse2) :
    pulse_running (apu_half_frame s).pulse2
    ∧ (apu_half_frame s).pulse2.counter = s.pulse2.counter - 1 := by
  obtain ⟨h1, h2, h3⟩ := h
  have hc : (apu_half_frame s).pulse2.counter = s.pulse2.counter - 1 := by
    show (sweep_clock apu_calcsweep_pulse2 (pulse_length_clock s.pulse2)).counter = _
    rw [sweep_clock_counter2]
    show length_clock s.pulse2.enabled s.pulse2.env.loop_halt s.pulse2.counter = _
    rw [h1, h2, length_clock_running _ h3]
  refine ⟨⟨?_, ?_, ?_⟩, hc⟩
  · show (sweep_clock apu_calcsweep_pulse2 (pulse_length_clock s.pulse2)).enabled = true
    rw [sweep_clock_enabled2]; exact h1
  · show (sweep_clock apu_calcsweep_pulse2 (pulse_length_clock s.pulse2)).env.loop_halt = false
    rw [sweep_clock_env2]; exact h2
  · rw [hc]; omega

theorem half_frames_running1 :
    ∀ (k : Nat) (s : apu_s), pulse_running s.pulse1 →
      (half_frames k s).pulse1.counter = s.pulse1.counter - k
  | 0, _, _ => rfl
  | k + 1, s, h => by
    obtain ⟨hr, hc⟩ := half_frame_running1 s h
    show (half_frames k (apu_half_frame s)).pulse1.counter = _
    rw [half_frames_running1 k _ hr, hc]
    omega

theorem half_frames_running2 :
    ∀ (k : Nat) (s : apu_s), pulse_running s.pulse2 →
      (half_frames k s).pulse2.counter = s.pulse2.counter - k
  | 0, _, _ => rfl
  | k + 1, s, h => by
    obtain ⟨hr, hc⟩ := half_frame_running2 s h
    show (half_frames k (apu_half_frame s)).pulse2.counter = _
    rw [half_frames_running2 k _ hr, hc]
    omega

/-! ## Noise timer -/

theorem noise_timer_core (m : Bool) (p : Nat) (ts : Nat × Nat) (n : apunoise_s)
    (h : n.mode = m ∧ n.period_actual = p ∧ n.timer = ts.1 ∧ n.shiftreg = ts.2) :
    (noise_timer n).mode = m ∧ (noise_timer n).period_actual = p
    ∧ (noise_timer n).timer = (noise_tick m p ts).1
    ∧ (noise_timer n).shiftreg = (noise_tick m p ts).2 := by
  obtain ⟨h1, h2, h3, h4⟩ := h
  unfold noise_timer noise_tick apu_noisegen
  rw [← h3, ← h4, ← h1, ← h2]
  split_ifs <;> exact ⟨rfl, rfl, rfl, rfl⟩

theorem noise_core_cycle (m : Bool) (p : Nat) (ts : Nat × Nat) (bus : Bus) (c : Nat)
    (s : apu_s) (h : noise_core m p ts s) :
    noise_core m p (if (c &&& 1) ≠ 0 then noise_tick m p ts else ts) (apu_cycle bus c s) := by
  have h1 : noise_core m p ts (frame_phase c s) := by
    unfold frame_phase
    split_ifs
    · exact frame_clock_preserves (noise_core m p ts) (fun _ ht => ht) (fun _ ht => ht)
        (fun _ _ ht => ht) s h
    · exact h
  show noise_core m p _ (every_cycle_phase bus (timer_phase c (frame_phase c s)))
  unfold timer_phase
  split_ifs with hc
  · exact noise_timer_core m p ts (frame_phase c s).noise h1
  · exact h1

theorem noise_core_process (m : Bool) (p : Nat) (bus : Bus) :
    ∀ (k c : Nat) (ts : Nat × Nat) (s : apu_s), noise_core m p ts s →
      noise_core m p (noise_ticks m p c k ts) (apu_process_from bus c k s)
  | 0, _, _, _, h => h
  | k + 1, c, ts, s, h =>
    noise_core_process m p bus k (c + 1) _ _ (noise_core_cycle m p ts bus c s h)

theorem noise_scenario_core (d : Nat) (s : apu_s) (h : s.noise_periods.getD 0 0 = 4) :
    noise_core false 4 (0, 1) (noise_scenario d s) := by
  refine ⟨rfl, ?_, rfl, rfl⟩
  show (s.noise_periods.getD (0x00 &&& 0x0F) 0) % 4096 = 4
  rw [show (0x00 &&& 0x0F : Nat) = 0 from rfl, h]

/-! ## Sweep target arithmetic -/

theorem shiftRight_le_self (n k : Nat) : n >>> k ≤ n := by
  rw [Nat.shiftRight_eq_div_pow]
  exact Nat.div_le_self _ _

theorem sweep_target1_exact (p : apupulse_s) (h : p.timer_period < 2048) :
    (sweep_target_pulse1 p : Int)
      = (if p.sweep_negate then
          (p.timer_period : Int) - (((p.timer_period >>> p.sweep_shift : Nat) : Int) - 1)
        else (p.timer_period : Int) + ((p.timer_period >>> p.sweep_shift : Nat) : Int)) := by
  have hd := shiftRight_le_self p.timer_period p.sweep_shift
  unfold sweep_target_pulse1
  generalize p.timer_period >>> p.sweep_shift = q at hd ⊢
  split_ifs <;> omega

theorem sweep_target2_exact (p : apupulse_s) (h : p.timer_period < 2048) :
    (sweep_target_pulse2 p : Int)
      = (if p.sweep_negate then
          (p.timer_period : Int) - ((p.timer_period >>> p.sweep_shift : Nat) : Int)
        else (p.timer_period : Int) + ((p.timer_period >>> p.sweep_shift : Nat) : Int)) := by
  have hd := shiftRight_le_self p.timer_period p.sweep_shift
  unfold sweep_target_pulse2
  generalize p.timer_period >>> p.sweep_shift = q at hd ⊢
  split_ifs <;> omega

/-! ## Envelope clock by cases -/

theorem envelope_step_start (e : apuenvelope_s) (h : env_wf e) (hs : e.start = true) :
    envelope_clock e =
      { e with start := false, counter := 15, divider := e.volperiod + 1,
               out := if e.const_vol then e.volperiod else 15 } := by
  obtain ⟨h1, -, -, -⟩ := h
  have hm : (e.volperiod + 1) % 32 = e.volperiod + 1 := Nat.mod_eq_of_lt (by omega)
  have hstep : envelope_step e
      = { e with start := false, counter := 15, divider := e.volperiod + 1 } := by
    unfold envelope_step
    rw [if_pos hs, hm]
  show envelope_out (envelope_step e) = _
  rw [hstep]
  unfold envelope_out
  cases hc : e.const_vol <;> simp [hc]

theorem envelope_step_reload (e : apuenvelope_s) (h : env_wf e) (hs : e.start = false)
    (hd : (e.divider + 31) % 32 = 0) :
    envelope_clock e =
      { e with
        divider := e.volperiod + 1
        counter := if e.counter > 0 then e.counter - 1 else if e.loop_halt then 15 else 0
        out := if e.const_vol then e.volperiod
               else if e.counter > 0 then e.counter - 1 else if e.loop_halt then 15 else 0 } := by
  obtain ⟨h1, h2, -, -⟩ := h
  have hm : (e.volperiod + 1) % 32 = e.volperiod + 1 := Nat.mod_eq_of_lt (by omega)
  have hc1 : (e.counter - 1) % 16 = e.counter - 1 := Nat.mod_eq_of_lt (by omega)
  have hstep : envelope_step e
      = { e with
          divider := e.volperiod + 1
          counter := if e.counter > 0 then e.counter - 1
                     else if e.loop_halt then 15 else 0 } := by
    unfold envelope_step
    rw [if_neg (by rw [hs]; exact Bool.false_ne_true), if_pos hd, hm, hc1]
    by_cases hc : e.counter = 0
    · cases hl : e.loop_halt <;> simp [hc]
    · have hp : 0 < e.counter := Nat.pos_of_ne_zero hc
      simp [hc, hp]
  show envelope_out (envelope_step e) = _
  rw [hstep]
  unfold envelope_out
  cases hv : e.const_vol <;> simp [hv]

theorem envelope_step_tick (e : apuenvelope_s) (hs : e.start = false)
    (hd : (e.divider + 31) % 32 ≠ 0) :
    envelope_clock e =
      { e with divider := (e.divider + 31) % 32
               out := if e.const_vol then e.volperiod else e.counter } := by
  have hstep : envelope_step e = { e with divider := (e.divider + 31) % 32 } := by
    unfold envelope_step
    rw [if_neg (by rw [hs]; exact Bool.false_ne_true), if_neg hd]
  show envelope_out (envelope_step e) = _
  rw [hstep]
  unfold envelope_out
  cases hv : e.const_vol <;> simp [hv]

/-! ## Frame count bound and loop index -/

theorem apu_cycle_preserves_frame (P : apu_s → Prop) (bus : Bus)
    (hq : ∀ s, P s → P (apu_quarter_frame s))
    (hh : ∀ s, P s → P (apu_half_frame s))
    (hu : ∀ s, P s → P (clear_updated s))
    (hf : ∀ s, P s → P (frame_count s))
    (hw : ∀ s, P s → P (wave_timers s))
    (he : ∀ s, P s → P (every_cycle_phase bus s))
    (c : Nat) (s : apu_s) (h : P s) : P (apu_cycle bus c s) := by
  have hev : P (frame_events s) := by
    unfold frame_events
    split_ifs <;> first | exact hu _ (hh _ (hq _ h)) | exact hq _ h | exact h
  have h1 : P (frame_phase c s) := by
    unfold frame_phase
    split_ifs
    · exact hf _ hev
    · exact h
  have h2 : P (timer_phase c (frame_phase c s)) := by
    unfold timer_phase
    split_ifs
    · exact hw _ h1
    · exact h1
  exact he _ h2

theorem frame_ok_advance (f : apuframecnt_s) (h : f.count ≤ frame_terminal f.mode) :
    (frame_advance f).count ≤ frame_terminal (frame_advance f).mode
    ∧ (frame_advance f).count = (if f.count = frame_terminal f.mode then 0 else f.count + 1) := by
  obtain ⟨a1, -, a3, -, -⟩ := frame_advance_count f
  have ht : frame_terminal f.mode ≤ 18640 := by
    unfold frame_terminal
    split_ifs <;> omega
  rw [a1, a3]
  by_cases hc : f.count = frame_terminal f.mode
  · rw [if_pos hc, if_pos hc]
    exact ⟨Nat.zero_le _, rfl⟩
  · rw [if_neg hc, if_neg hc]
    have hm : (f.count + 1) % 32768 = f.count + 1 := Nat.mod_eq_of_lt (by omega)
    rw [hm]
    exact ⟨by omega, rfl⟩

theorem frame_ok_cycle (bus : Bus) (c : Nat) (s : apu_s) (h : frame_ok s) :
    frame_ok (apu_cycle bus c s) := by
  refine apu_cycle_preserves_frame frame_ok bus ?_ ?_ ?_ ?_ ?_ ?_ c s h
  · intro t ht; exact ht
  · intro t ht; exact ht
  · intro t ht
    unfold clear_updated
    split_ifs
    · exact ht
    · exact ht
  · intro t ht
    exact (frame_ok_advance t.framecnt ht).1
  · intro t ht; exact ht
  · intro t ht; exact ht

theorem frame_ok_write (addr data : Nat) (s : apu_s) (h : frame_ok s) :
    frame_ok (apu_write addr data s) := by
  refine apu_write_preserves frame_ok ?_ ?_ ?_ ?_ ?_ ?_ ?_ ?_ addr data s h
  · intro t r ht; exact ht
  · intro t d ht; exact ⟨ht, ht, ht, ht⟩
  · intro t d ht; exact ⟨ht, ht, ht, ht⟩
  · intro t d ht; exact ⟨ht, ht, ht⟩
  · intro t d ht; exact ⟨ht, ht, ht⟩
  · intro t d ht; exact ⟨ht, ht, ht, ht⟩
  · intro t d ht; exact ht
  · intro t d _
    exact Nat.zero_le _

theorem apu_cycle_mod_two (bus : Bus) (c : Nat) (s : apu_s) :
    apu_cycle bus c s = apu_cycle bus (c % 2) s :=
  apu_cycle_parity bus c (c % 2) s
    (by rw [Nat.and_one_is_mod, Nat.and_one_is_mod, Nat.mod_mod])

/-! ## Claims -/

/-- C1 (evaluation of the code): in `apu_reset` the loop passes the addresses
`0x00 .. 0x13` to `apu_write`, none of which is a register, so after `apu_reset` the
noise period, the DMC rate, the DMC length and the DMC address are all 0 and neither
pulse envelope has `start` set, whereas the sequence of register writes in the
specification gives DMC length 1, DMC address 0xC000, both `start` flags set and
(NTSC) noise period 4 and DMC rate 428.  The two states differ for every context. -/
theorem apu_reset_skips_register_writes (s : apu_s) :
    (apu_reset s).noise.period_actual = 0 ∧ (apu_reset s).dmc.rate_actual = 0
    ∧ (apu_reset s).dmc.length = 0 ∧ (apu_reset s).dmc.address = 0
    ∧ (apu_reset s).pulse1.env.start = false ∧ (apu_reset s).pulse2.env.start = false
    ∧ (reset_by_registers s).dmc.length = 1 ∧ (reset_by_registers s).dmc.address = 0xC000
    ∧ (reset_by_registers s).pulse1.env.start = true
    ∧ (reset_by_registers s).pulse2.env.start = true
    ∧ (reset_by_registers ntsc_ctx).noise.period_actual = 4
    ∧ (reset_by_registers ntsc_ctx).dmc.rate_actual = 428
    ∧ apu_reset s ≠ reset_by_registers s := by
  refine ⟨rfl, rfl, rfl, rfl, rfl, rfl, rfl, rfl, rfl, rfl, by decide, by decide, ?_⟩
  intro h
  have h2 : (0 : Nat) = 1 := congrArg (fun t => t.dmc.length) h
  exact absurd h2 (by decide)

/-- C2 (evaluation of the code): `Rd6502` has no branch for `$4000`-`$4017`, so a
bus read of `$4015` returns 0 on every bus, also in the state `held_pulse1` where
the length counter of pulse 1 is 254 and held and `apu_read(0x4015)` returns 1. -/
theorem Rd6502_status_reads_zero (b : Bus) :
    Rd6502 b 0x4015 = 0 ∧ (apu_read 0x4015 held_pulse1).1 = 1
    ∧ held_pulse1.pulse1.counter = 254 ∧ held_pulse1.pulse1.env.loop_halt = true :=
  ⟨rfl, by decide, by decide, by decide⟩

/-- C3: `apu_read(0x4015)` returns the byte with bit 7 = DMC irq, bit 6 = frame
interrupt, bits 5 and 4 clear, bits 3..0 = noise, triangle, pulse 2, pulse 1 length
counter greater than 0; any other address reads 0; the context is unchanged. -/
theorem apu_read_status_byte (s : apu_s) :
    Nat.testBit (apu_read 0x4015 s).1 7 = s.dmc.irq
    ∧ Nat.testBit (apu_read 0x4015 s).1 6 = s.framecnt.interrupt
    ∧ Nat.testBit (apu_read 0x4015 s).1 5 = false
    ∧ Nat.testBit (apu_read 0x4015 s).1 4 = false
    ∧ Nat.testBit (apu_read 0x4015 s).1 3 = decide (s.noise.counter > 0)
    ∧ Nat.testBit (apu_read 0x4015 s).1 2 = decide (s.tri.counter > 0)
    ∧ Nat.testBit (apu_read 0x4015 s).1 1 = decide (s.pulse2.counter > 0)
    ∧ Nat.testBit (apu_read 0x4015 s).1 0 = decide (s.pulse1.counter > 0)
    ∧ (apu_read 0x4015 s).1 < 256
    ∧ (∀ addr, addr ≠ 0x4015 → (apu_read addr s).1 = 0)
    ∧ (∀ addr, (apu_read addr s).2 = s) := by
  obtain ⟨h7, h6, h5, h4, h3, h2, h1, h0⟩ :=
    status_bits s.dmc.irq s.framecnt.interrupt (decide (s.noise.counter > 0))
      (decide (s.tri.counter > 0)) (decide (s.pulse2.counter > 0))
      (decide (s.pulse1.counter > 0))
  refine ⟨h7, h6, h5, h4, h3, h2, h1, h0, ?_, ?_, ?_⟩
  · exact Nat.mod_lt _ (by decide)
  · intro addr h
    simp [apu_read, h]
  · intro addr
    unfold apu_read
    split <;> rfl

/-- Witness of C3: the read of `$4000` in the state `held_pulse1`. -/
theorem apu_read_status_byte_witness :
    (0x4000 : Nat) ≠ 0x4015 ∧ (apu_read 0x4000 held_pulse1).1 = 0 :=
  ⟨by decide, (apu_read_status_byte held_pulse1).2.2.2.2.2.2.2.2.2.1 0x4000 (by decide)⟩

set_option maxRecDepth 1000000 in
/-- C4 (counterexample): for the first sample after the reset of the NTSC context
at 48000 Hz, `apu_output` does not return
`pulse_mix_lut[p1+p2] + tnd_mix_lut[3*tri+2*noise+dmc] - 2^31`. -/
theorem apu_output_offset_counterexample :
    (apu_output zero_bus (apu_reset ntsc_ctx)).1 ≠
      to_int32
        (((apu_advance zero_bus (apu_reset ntsc_ctx)).pulse_mix_lut.getD
            (pulse_out (apu_advance zero_bus (apu_reset ntsc_ctx)).pulse1
              + pulse_out (apu_advance zero_bus (apu_reset ntsc_ctx)).pulse2) 0 : Int)
          + ((apu_advance zero_bus (apu_reset ntsc_ctx)).tnd_mix_lut.getD
            (3 * tri_out (apu_advance zero_bus (apu_reset ntsc_ctx)).tri
              + 2 * noise_out (apu_advance zero_bus (apu_reset ntsc_ctx)).noise
              + dmc_out (apu_advance zero_bus (apu_reset ntsc_ctx)).dmc) 0 : Int)
          - 2 ^ 31) := by
  decide

/-- C4 (amended): the sample returned by `apu_output` is
`pulse_mix_lut[p1+p2] + tnd_mix_lut[3*tri+2*noise+dmc] - (2^31 - 1)` as a signed
32-bit integer, the channel outputs being those of the state after the cycle
advancement, which is also the state `apu_output` leaves. -/
theorem apu_output_sample (bus : Bus) (s : apu_s) :
    (apu_output bus s).2 = apu_advance bus s ∧
    (apu_output bus s).1 =
      to_int32
        (((apu_advance bus s).pulse_mix_lut.getD
            (pulse_out (apu_advance bus s).pulse1 + pulse_out (apu_advance bus s).pulse2)
            0 : Int)
          + ((apu_advance bus s).tnd_mix_lut.getD
            (3 * tri_out (apu_advance bus s).tri + 2 * noise_out (apu_advance bus s).noise
              + dmc_out (apu_advance bus s).dmc) 0 : Int)
          - (2 ^ 31 - 1)) := by
  refine ⟨rfl, ?_⟩
  show mix (apu_advance bus s) = _
  unfold mix
  rw [to_int32_mod, tnd_index_eq]
  unfold pulse_index
  push_cast
  norm_num

/-- C5: for every context whose fields are within their declared widths, the two
table indices computed by `apu_output` (after its cycle advancement) satisfy
`p1 + p2 <= 30` and `3*tri + 2*noise + dmc <= 202`, and lie inside the 31-entry and
203-entry tables. -/
theorem mixer_indices_in_bounds (bus : Bus) (s : apu_s) (h : apu_wf s) :
    pulse_index (apu_advance bus s)
      = pulse_out (apu_advance bus s).pulse1 + pulse_out (apu_advance bus s).pulse2
    ∧ tnd_index (apu_advance bus s)
      = 3 * tri_out (apu_advance bus s).tri + 2 * noise_out (apu_advance bus s).noise
        + dmc_out (apu_advance bus s).dmc
    ∧ pulse_index (apu_advance bus s) ≤ 30
    ∧ tnd_index (apu_advance bus s) ≤ 202
    ∧ pulse_index (apu_advance bus s) < (apu_advance bus s).pulse_mix_lut.length
    ∧ tnd_index (apu_advance bus s) < (apu_advance bus s).tnd_mix_lut.length := by
  obtain ⟨h1, h2, h3, h4⟩ := mix_wf_advance bus s (mix_wf_of_apu_wf s h)
  have hp1 := pulse_out_le (apu_advance bus s).pulse1 h1.2.2.2
  have hp2 := pulse_out_le (apu_advance bus s).pulse2 h2.2.2.2
  have hn := noise_out_le (apu_advance bus s).noise h3.2.2.2
  have ht := tri_out_le (apu_advance bus s).tri
  have hd : dmc_out (apu_advance bus s).dmc < 128 := h4
  have hl := luts_advance bus s
  have hlen1 : s.pulse_mix_lut.length = 31 := h.2.2.2.2.2.2.2.2.2.2.2.2.2.2.2.1
  have hlen2 : s.tnd_mix_lut.length = 203 := h.2.2.2.2.2.2.2.2.2.2.2.2.2.2.2.2.2.1
  have hi := tnd_index_eq (apu_advance bus s)
  have hpi : pulse_index (apu_advance bus s)
      = pulse_out (apu_advance bus s).pulse1 + pulse_out (apu_advance bus s).pulse2 := rfl
  rw [hl.1, hl.2, hlen1, hlen2]
  refine ⟨hpi, hi, ?_, ?_, ?_, ?_⟩ <;> omega

set_option maxRecDepth 1000000 in
/-- Witness of C5: the NTSC context after reset. -/
theorem mixer_indices_in_bounds_witness :
    apu_wf (apu_reset ntsc_ctx)
    ∧ pulse_index (apu_advance zero_bus (apu_reset ntsc_ctx)) ≤ 30
    ∧ tnd_index (apu_advance zero_bus (apu_reset ntsc_ctx)) ≤ 202 :=
  ⟨by decide,
   (mixer_indices_in_bounds zero_bus (apu_reset ntsc_ctx) (by decide)).2.2.1,
   (mixer_indices_in_bounds zero_bus (apu_reset ntsc_ctx) (by decide)).2.2.2.1⟩

/-- C6: in every state reachable from `apu_reset` by calls of `apu_write`, `apu_read`,
`apu_process` and `apu_output`, the length counters of pulse 1, pulse 2, triangle and
noise are between 0 and 254; a length-counter clock never increases the counter, and
over the integers it leaves it, sets it to 0, or subtracts 1 from a positive value. -/
theorem length_counters_bounded (s0 : apu_s) (ops : List Op) :
    (0 ≤ (run ops (apu_reset s0)).pulse1.counter
      ∧ (run ops (apu_reset s0)).pulse1.counter ≤ 254)
    ∧ (0 ≤ (run ops (apu_reset s0)).pulse2.counter
      ∧ (run ops (apu_reset s0)).pulse2.counter ≤ 254)
    ∧ (0 ≤ (run ops (apu_reset s0)).tri.counter
      ∧ (run ops (apu_reset s0)).tri.counter ≤ 254)
    ∧ (0 ≤ (run ops (apu_reset s0)).noise.counter
      ∧ (run ops (apu_reset s0)).noise.counter ≤ 254)
    ∧ ∀ (enabled halt : Bool) (c : Nat), c ≤ 254 →
        length_clock enabled halt c ≤ c
        ∧ ((length_clock enabled halt c : Int) = (c : Int)
           ∨ length_clock enabled halt c = 0
           ∨ (0 < c ∧ (length_clock enabled halt c : Int) = (c : Int) - 1)) := by
  obtain ⟨h1, h2, h3, h4⟩ :=
    run_preserves len_ok len_ok_write len_ok_cycle (fun _ _ ht => ht) ops (apu_reset s0)
      (len_ok_reset s0)
  refine ⟨⟨Nat.zero_le _, h1⟩, ⟨Nat.zero_le _, h2⟩, ⟨Nat.zero_le _, h3⟩,
    ⟨Nat.zero_le _, h4⟩, ?_⟩
  intro enabled halt c hc
  refine ⟨length_clock_le enabled halt c, ?_⟩
  unfold length_clock
  split_ifs with he hd
  · exact Or.inr (Or.inr ⟨Nat.pos_of_ne_zero hd.1, by omega⟩)
  · exact Or.inl rfl
  · exact Or.inr (Or.inl rfl)

/-- Witness of C6: one length-counter clock of an enabled, not halted channel at 254. -/
theorem length_counters_bounded_witness :
    (254 : Nat) ≤ 254 ∧ length_clock true false 254 ≤ 254 :=
  ⟨by decide,
   ((length_counters_bounded ntsc_ctx []).2.2.2.2 true false 254 (by decide)).1⟩

/-- C7: the noise shift register is 1 after `apu_reset`; in every state reachable
from `apu_reset` by calls of `apu_write`, `apu_read`, `apu_process` and `apu_output` it
is a nonzero 15-bit value; and in both modes one LFSR step (`apu_noisegen`) maps a
nonzero 15-bit register to a nonzero 15-bit register. -/
theorem noise_shiftreg_nonzero (s0 : apu_s) (ops : List Op) :
    (apu_reset s0).noise.shiftreg = 1
    ∧ (run ops (apu_reset s0)).noise.shiftreg ≠ 0
    ∧ (run ops (apu_reset s0)).noise.shiftreg < 2 ^ 15
    ∧ (∀ (mode : Bool) (sr : Nat), sr ≠ 0 → sr < 2 ^ 15 → noisegen mode sr ≠ 0)
    ∧ (∀ n : apunoise_s, n.shiftreg ≠ 0 → n.shiftreg < 2 ^ 15 →
        (apu_noisegen n).shiftreg ≠ 0 ∧ (apu_noisegen n).shiftreg < 2 ^ 15) := by
  have hr : shift_ok (apu_reset s0) :=
    ⟨(by decide : 0 < 1), (by decide : 1 < 32768)⟩
  have h := run_preserves shift_ok shift_ok_write shift_ok_cycle (fun _ _ ht => ht) ops
    (apu_reset s0) hr
  refine ⟨rfl, Nat.pos_iff_ne_zero.mp h.1, h.2, ?_, ?_⟩
  · intro mode sr hs hlt
    exact Nat.pos_iff_ne_zero.mp (noisegen_ok mode sr (Nat.pos_of_ne_zero hs) hlt).1
  · intro n hs hlt
    have hn := noisegen_ok n.mode n.shiftreg (Nat.pos_of_ne_zero hs) hlt
    exact ⟨Nat.pos_iff_ne_zero.mp hn.1, hn.2⟩

/-- Witness of C7: one LFSR step from the reset value 1, in each mode. -/
theorem noise_shiftreg_nonzero_witness :
    (1 : Nat) ≠ 0 ∧ (1 : Nat) < 2 ^ 15 ∧ noisegen true 1 ≠ 0 ∧ noisegen false 1 ≠ 0 :=
  ⟨by decide, by decide,
   (noise_shiftreg_nonzero ntsc_ctx []).2.2.2.1 true 1 (by decide) (by decide),
   (noise_shiftreg_nonzero ntsc_ctx []).2.2.2.1 false 1 (by decide) (by decide)⟩

/-- C8: in every state reachable from `apu_reset` the DMC delta counter is in
[0,127]; for a counter in that range the value the output unit computes over the
integers is in [0,127], it is the old value, or the old value minus 2 (only when the
counter is greater than 1), or the old value plus 2 (only when it is less than 126),
and this is the value the 7-bit field receives; one step of the output unit changes
the counter by 0 or exactly 2. -/
theorem dmc_counter_in_range (s0 : apu_s) (ops : List Op) :
    0 ≤ (run ops (apu_reset s0)).dmc.counter ∧ (run ops (apu_reset s0)).dmc.counter ≤ 127
    ∧ ∀ d : apudmc_s, d.counter ≤ 127 →
        (0 ≤ dmc_delta d.counter d.shiftreg ∧ dmc_delta d.counter d.shiftreg ≤ 127)
        ∧ (dmc_delta d.counter d.shiftreg = (d.counter : Int)
           ∨ (dmc_delta d.counter d.shiftreg = (d.counter : Int) - 2 ∧ d.counter > 1)
           ∨ (dmc_delta d.counter d.shiftreg = (d.counter : Int) + 2 ∧ d.counter < 126))
        ∧ ((dmc_adjust d).counter : Int)
            = (if d.silence = 0 then dmc_delta d.counter d.shiftreg else (d.counter : Int))
        ∧ (dmc_output d).counter ≤ 127
        ∧ (((dmc_output d).counter : Int) = d.counter
           ∨ ((dmc_output d).counter : Int) = (d.counter : Int) - 2
           ∨ ((dmc_output d).counter : Int) = (d.counter : Int) + 2) := by
  have hr : dmc_ok (apu_reset s0) := (by decide : (0 : Nat) < 128)
  have h := run_preserves dmc_ok dmc_ok_write dmc_ok_cycle (fun _ _ ht => ht) ops
    (apu_reset s0) hr
  refine ⟨Nat.zero_le _, Nat.le_of_lt_succ h, ?_⟩
  intro d hd
  have h1 := dmc_delta_range d.counter d.shiftreg hd
  exact ⟨⟨h1.1, h1.2.1⟩, h1.2.2, dmc_adjust_counter d hd,
    Nat.le_of_lt_succ (dmc_output_counter_lt d (Nat.lt_succ_of_le hd)),
    dmc_output_counter_step d hd⟩

/-- Witness of C8: at counter 126 with a 1 bit the output unit adds nothing. -/
theorem dmc_counter_in_range_witness :
    (126 : Nat) ≤ 127 ∧ dmc_delta 126 1 ≤ 127 :=
  ⟨by decide,
   ((dmc_counter_in_range ntsc_ctx []).2.2
      { zero_dmc with counter := 126, shiftreg := 1 } (by decide)).1.2⟩

/-- C9 (evaluation of the code): in mode 1 `apu_noisegen` ORs the feedback bit,
taken from bits 0 and 5, into bit 0 instead of bit 14: from register 1 it yields 1,
not 0x4000, and from 0x40 it yields 0x20, not 0x4020.  In mode 0 the step from 1
agrees with the specification. -/
theorem noisegen_mode1_feedback_not_shifted :
    noisegen true 1 = 1 ∧ lfsr_step_spec true 1 = 0x4000
    ∧ noisegen true 0x40 = 0x20 ∧ lfsr_step_spec true 0x40 = 0x4020
    ∧ noisegen false 1 = lfsr_step_spec false 1
    ∧ (apu_noisegen { zero_noise with mode := true, shiftreg := 1 }).shiftreg = 1 := by
  decide

set_option maxRecDepth 100000 in
/-- C10 (counterexample): in the state `noise_demo` the noise length counter is 253,
bit 0 of the shift register is 1 and the envelope output is 5; the mixer's noise
value is 5, not the 0 the claim gives for bit 0 = 1. -/
theorem noise_out_bit0_counterexample :
    noise_demo.noise.counter = 253 ∧ noise_demo.noise.shiftreg = 1
    ∧ noise_demo.noise.env.out = 5
    ∧ noise_out noise_demo.noise ≠
      (if noise_demo.noise.counter = 0 ∨ noise_demo.noise.shiftreg &&& 1 = 1 then 0
        else noise_demo.noise.env.out) := by
  decide

/-- C10 (amended): for every APU state whose noise envelope output is within its 4
bits, the noise value used by the mixer is 0 if the noise length counter is 0 or
bit 0 of the shift register is 0, and otherwise equals the envelope's `out`. -/
theorem noise_out_value (s : apu_s) (h : s.noise.env.out < 16) :
    noise_out s.noise =
      (if s.noise.counter = 0 ∨ s.noise.shiftreg &&& 1 = 0 then 0 else s.noise.env.out)
    ∧ tnd_index s = 3 * tri_out s.tri + 2 * noise_out s.noise + dmc_out s.dmc := by
  refine ⟨?_, tnd_index_eq s⟩
  unfold noise_out b2n
  rw [Nat.and_one_is_mod]
  have hm : s.noise.env.out % 256 = s.noise.env.out := Nat.mod_eq_of_lt (by omega)
  rcases Nat.mod_two_eq_zero_or_one s.noise.shiftreg with h2 | h2 <;> rw [h2] <;>
    by_cases hc : s.noise.counter = 0
  · simp [hc]
  · simp [hc]
  · simp [hc]
  · simp [hc, Nat.pos_of_ne_zero hc, hm]

set_option maxRecDepth 100000 in
/-- Witness of C10 (amended): the state `noise_demo`. -/
theorem noise_out_value_witness :
    noise_demo.noise.env.out < 16 ∧ noise_out noise_demo.noise = 5 :=
  ⟨by decide, (noise_out_value noise_demo (by decide)).1.trans (by decide)⟩

/-- C11 (counterexample): after the reset of the NTSC context the triangle length
counter is 0, yet the triangle value used by the mixer is 7 (table index 21), not 0. -/
theorem tri_out_counterexample :
    (apu_reset ntsc_ctx).tri.counter = 0 ∧ tri_out (apu_reset ntsc_ctx).tri = 7
    ∧ tri_out (apu_reset ntsc_ctx).tri ≠ 0
    ∧ tnd_index (apu_reset ntsc_ctx) = 21 := by
  decide

/-- C11 (amended): for every APU state in which the triangle length counter is 0 the
triangle sequencer is frozen: the triangle timer changes nothing, `apu_process` leaves
the length counter at 0 and the phase unchanged, and the triangle value used by the
mixer (7 if `timer_period < 2`, else `triseq[phase]`) stays at its current level, also
across the cycle advancement of `apu_output`. -/
theorem tri_out_holds_level (bus : Bus) (n : Nat) (s : apu_s) (h : s.tri.counter = 0) :
    tri_out s.tri = (if s.tri.timer_period < 2 then 7 else triseq.getD s.tri.phase 0)
    ∧ tri_timer s.tri = s.tri
    ∧ (apu_process bus n s).tri.counter = 0
    ∧ (apu_process bus n s).tri.phase = s.tri.phase
    ∧ tri_out (apu_process bus n s).tri = tri_out s.tri
    ∧ tri_out (apu_advance bus s).tri = tri_out s.tri := by
  have hp := apu_process_from_preserves (tri_frozen s.tri.phase s.tri.timer_period) bus
    (tri_frozen_cycle _ _ bus) n 0 s ⟨h, rfl, rfl⟩
  have ha := apu_advance_preserves (tri_frozen s.tri.phase s.tri.timer_period) bus
    (tri_frozen_cycle _ _ bus) (fun _ _ ht => ht) s ⟨h, rfl, rfl⟩
  refine ⟨rfl, tri_timer_frozen s.tri h, hp.1, hp.2.1, ?_, ?_⟩
  · unfold tri_out
    rw [show (apu_process bus n s).tri.phase = s.tri.phase from hp.2.1,
      show (apu_process bus n s).tri.timer_period = s.tri.timer_period from hp.2.2]
  · unfold tri_out
    rw [ha.2.1, ha.2.2]

/-- Witness of C11 (amended): a thousand cycles after reset the level is still 7. -/
theorem tri_out_holds_level_witness :
    (apu_reset ntsc_ctx).tri.counter = 0
    ∧ tri_out (apu_process zero_bus 1000 (apu_reset ntsc_ctx)).tri = 7 :=
  ⟨by decide,
   (tri_out_holds_level zero_bus 1000 (apu_reset ntsc_ctx) (by decide)).2.2.2.2.1.trans
    (by decide)⟩

/-- C12: for every APU state (envelope outputs within their 4 bits) and each pulse
channel, the value used by the mixer is 0 if the length counter is 0 or
`sweep_silence` is set, and otherwise `pulseseq[duty][phase] * env.out`, the rows of
the table being 01000000, 01100000, 01111000, 10011111; hence `sweep_silence` implies
output 0 and length counter 0 implies output 0. -/
theorem pulse_out_value (s : apu_s) (h1 : s.pulse1.env.out < 16)
    (h2 : s.pulse2.env.out < 16) :
    pulseseq = [[0, 1, 0, 0, 0, 0, 0, 0], [0, 1, 1, 0, 0, 0, 0, 0],
                [0, 1, 1, 1, 1, 0, 0, 0], [1, 0, 0, 1, 1, 1, 1, 1]]
    ∧ pulse_out s.pulse1 =
        (if s.pulse1.counter = 0 ∨ s.pulse1.sweep_silence = true then 0
          else (pulseseq.getD s.pulse1.duty []).getD s.pulse1.phase 0 * s.pulse1.env.out)
    ∧ pulse_out s.pulse2 =
        (if s.pulse2.counter = 0 ∨ s.pulse2.sweep_silence = true then 0
          else (pulseseq.getD s.pulse2.duty []).getD s.pulse2.phase 0 * s.pulse2.env.out)
    ∧ (s.pulse1.sweep_silence = true → pulse_out s.pulse1 = 0)
    ∧ (s.pulse2.sweep_silence = true → pulse_out s.pulse2 = 0)
    ∧ (s.pulse1.counter = 0 → pulse_out s.pulse1 = 0)
    ∧ (s.pulse2.counter = 0 → pulse_out s.pulse2 = 0)
    ∧ pulse_index s = pulse_out s.pulse1 + pulse_out s.pulse2 := by
  have key : ∀ p : apupulse_s, p.env.out < 16 →
      pulse_out p = (if p.counter = 0 ∨ p.sweep_silence = true then 0
          else (pulseseq.getD p.duty []).getD p.phase 0 * p.env.out) := by
    intro p hp
    unfold pulse_out
    split_ifs with hc
    · rfl
    · have hpos : 0 < p.counter := by
        rcases Nat.eq_zero_or_pos p.counter with h0 | h0
        · exact absurd (Or.inl h0) hc
        · exact h0
      have hs := pulseseq_le p.duty p.phase
      have hb : b2n (decide (p.counter > 0)) = 1 := by simp [b2n, hpos]
      rw [hb, Nat.mul_one]
      apply Nat.mod_eq_of_lt
      calc (pulseseq.getD p.duty []).getD p.phase 0 * p.env.out
          ≤ 1 * p.env.out := Nat.mul_le_mul_right _ hs
        _ < 256 := by omega
  have k1 := key s.pulse1 h1
  have k2 := key s.pulse2 h2
  refine ⟨rfl, k1, k2, ?_, ?_, ?_, ?_, rfl⟩
  · intro hs; rw [k1, if_pos (Or.inr hs)]
  · intro hs; rw [k2, if_pos (Or.inr hs)]
  · intro hs; rw [k1, if_pos (Or.inl hs)]
  · intro hs; rw [k2, if_pos (Or.inl hs)]

/-- Witness of C12: pulse 2 of `held_pulse1`, whose length counter is 0. -/
theorem pulse_out_value_witness :
    held_pulse1.pulse1.env.out < 16 ∧ held_pulse1.pulse2.env.out < 16
    ∧ held_pulse1.pulse2.counter = 0 ∧ pulse_out held_pulse1.pulse2 = 0 :=
  ⟨by decide, by decide, by decide,
   (pulse_out_value held_pulse1 (by decide) (by decide)).2.2.2.2.2.2.1 (by decide)⟩

/-- C13 (counterexample): with no pending reset and the 15-bit count at 32767, which
is not the terminal value, one frame-counter tick sets the count to 0, not to
count + 1. -/
theorem frame_count_wrap_counterexample :
    wrap_demo.framecnt.updated = false ∧ wrap_demo.framecnt.count = 32767
    ∧ wrap_demo.framecnt.count ≠ frame_terminal wrap_demo.framecnt.mode
    ∧ (frame_clock wrap_demo).framecnt.count ≠ wrap_demo.framecnt.count + 1
    ∧ (frame_clock wrap_demo).framecnt.count = 0 := by
  decide

/-- C13 (amended): for every frame-counter state with no pending reset (count within
its 15 bits), one frame-counter tick at count c applies the quarter-frame and the
half-frame clock iff c is 7456 or the terminal value (14914 in 4-step, 18640 in 5-step
mode), the quarter-frame clock alone iff c is 3728 or 11185, and nothing otherwise;
the next count is 0 iff c is the terminal value or 32767, and c + 1 otherwise; the
interrupt flag is set afterwards iff it was set before or the mode is 4-step,
c = 14914 and `int_inhibit` is false. -/
theorem frame_clock_schedule (s : apu_s) (h : s.framecnt.updated = false)
    (hw : s.framecnt.count < 32768) :
    frame_clock s = frame_count (frame_events s)
    ∧ frame_events s =
      (if s.framecnt.count = 7456 ∨ s.framecnt.count = frame_terminal s.framecnt.mode then
        apu_half_frame (apu_quarter_frame s)
      else if s.framecnt.count = 3728 ∨ s.framecnt.count = 11185 then apu_quarter_frame s
      else s)
    ∧ (frame_clock s).framecnt.count
      = (if s.framecnt.count = frame_terminal s.framecnt.mode ∨ s.framecnt.count = 32767
          then 0 else s.framecnt.count + 1)
    ∧ ((frame_clock s).framecnt.interrupt = true ↔
        (s.framecnt.interrupt = true
          ∨ (s.framecnt.mode = false ∧ s.framecnt.count = 14914
              ∧ s.framecnt.int_inhibit = false)))
    ∧ (frame_clock s).framecnt.updated = false
    ∧ (frame_clock s).framecnt.mode = s.framecnt.mode
    ∧ frame_terminal false = 14914 ∧ frame_terminal true = 18640 := by
  have hf : (frame_clock s).framecnt = frame_advance s.framecnt := by
    show frame_advance (frame_events s).framecnt = _
    rw [frame_events_framecnt s h]
  obtain ⟨a1, a2, a3, -, a5⟩ := frame_advance_count s.framecnt
  refine ⟨rfl, frame_events_idle s h, ?_, ?_, ?_, ?_, rfl, rfl⟩
  · rw [hf, a1]
    by_cases ht : s.framecnt.count = frame_terminal s.framecnt.mode
    · rw [if_pos ht, if_pos (Or.inl ht)]
    · rw [if_neg ht]
      by_cases hm : s.framecnt.count = 32767
      · rw [if_pos (Or.inr hm), hm]
      · rw [if_neg (by rintro (h1 | h1) <;> contradiction)]
        omega
  · rw [hf, a2]
    cases hx : s.framecnt.interrupt <;> cases hm : s.framecnt.mode <;>
      cases hi : s.framecnt.int_inhibit <;>
      by_cases hc : s.framecnt.count = 14914 <;> simp [hc]
  · rw [hf, a5, h]
  · rw [hf, a3]

/-- Witness of C13 (amended): the tick at count 2 of the NTSC context. -/
theorem frame_clock_schedule_witness :
    parity_demo.framecnt.updated = false ∧ parity_demo.framecnt.count < 32768
    ∧ (frame_clock parity_demo).framecnt.count = 3 :=
  ⟨by decide, by decide,
   (frame_clock_schedule parity_demo (by decide) (by decide)).2.2.1.trans (by decide)⟩

/-- C14: `apu_write(0x4017, d)` sets `mode` to bit 7 of d, `int_inhibit` to bit 6,
`count` to 0 and the pending-reset flag; the following `apu_process(1)` is one
quarter-frame clock, one half-frame clock, the clearing of the flag and the count
step, followed by the every-cycle units, in either mode. -/
theorem frame_counter_write (bus : Bus) (s : apu_s) (d : Nat) :
    (apu_write 0x4017 d s).framecnt.mode = d.testBit 7
    ∧ (apu_write 0x4017 d s).framecnt.int_inhibit = d.testBit 6
    ∧ (apu_write 0x4017 d s).framecnt.count = 0
    ∧ (apu_write 0x4017 d s).framecnt.updated = true
    ∧ apu_process bus 1 (apu_write 0x4017 d s)
        = every_cycle_phase bus
            (frame_count (clear_updated
              (apu_half_frame (apu_quarter_frame (apu_write 0x4017 d s)))))
    ∧ (apu_process bus 1 (apu_write 0x4017 d s)).framecnt.updated = false
    ∧ (apu_process bus 1 (apu_write 0x4017 d s)).framecnt.mode = d.testBit 7 := by
  have hw : apu_write 0x4017 d s =
      { s with regs := s.regs.set (0x4017 &&& 0x1F) d
               framecnt := { s.framecnt with
                 count := 0
                 mode := BIT d 7
                 int_inhibit := BIT d 6
                 updated := true } } := rfl
  have hp : apu_process bus 1 (apu_write 0x4017 d s)
        = every_cycle_phase bus
            (frame_count (clear_updated
              (apu_half_frame (apu_quarter_frame (apu_write 0x4017 d s))))) := by
    rw [hw]
    show apu_cycle bus 0 _ = _
    unfold apu_cycle frame_phase timer_phase frame_clock frame_events
    cases hb : BIT d 7 <;> simp
  refine ⟨?_, ?_, rfl, rfl, hp, ?_, ?_⟩
  · rw [hw]; exact BIT_eq_testBit d 7
  · rw [hw]; exact BIT_eq_testBit d 6
  · rw [hp]
    show (frame_advance (clear_updated _).framecnt).updated = false
    rw [(frame_advance_count _).2.2.2.2, clear_updated_flag]
  · rw [hp, hw]
    show (frame_advance _).mode = _
    rw [(frame_advance_count _).2.2.1]
    exact BIT_eq_testBit d 7

/-- C15: for every N and every cycles-per-sample value cps with cps + 65535 < 2^32,
starting from accumulator 0, the cycles passed to `apu_process` by N consecutive calls
of `apu_output` add up to floor(N * cps / 65536), the accumulator afterwards is
(N * cps) mod 65536, and it is below 65536 after every call. -/
theorem sample_pump_cycles (bus : Bus) (N : Nat) (s : apu_s) (h0 : s.cpu_cycles = 0)
    (hc : s.clock_cycles_per_sample + 65535 < 2 ^ 32) :
    (∀ t, apu_advance bus t = mask_cycles (apu_process bus (output_cycles t) (add_cycles t)))
    ∧ total_cycles bus N s = N * s.clock_cycles_per_sample / 65536
    ∧ (outputs bus N s).cpu_cycles = (N * s.clock_cycles_per_sample) % 65536
    ∧ (∀ k, (outputs bus k s).cpu_cycles < 65536) := by
  have h := outputs_acc bus s.clock_cycles_per_sample hc N s (by rw [h0]; decide) rfl
  rw [h0, Nat.zero_add] at h
  refine ⟨fun _ => rfl, h.1, h.2.1, ?_⟩
  intro k
  rw [(outputs_acc bus s.clock_cycles_per_sample hc k s (by rw [h0]; decide) rfl).2.1]
  exact Nat.mod_lt _ (by decide)

/-- Witness of C15: one second of samples of the NTSC context at 48000 Hz. -/
theorem sample_pump_cycles_witness :
    (apu_reset ntsc_ctx).cpu_cycles = 0
    ∧ (apu_reset ntsc_ctx).clock_cycles_per_sample + 65535 < 2 ^ 32
    ∧ total_cycles zero_bus 48000 (apu_reset ntsc_ctx) = 1789772 :=
  ⟨by decide, by decide,
   (sample_pump_cycles zero_bus 48000 (apu_reset ntsc_ctx) (by decide) (by decide)).2.1.trans
    (by decide)⟩

/-- C16 (counterexample): from `parity_demo`, where no frame-counter reset is
pending, `apu_process(1)` twice leaves the frame count at 2 while `apu_process(2)`
leaves it at 3, so the two states differ. -/
theorem apu_process_split_counterexample :
    parity_demo.framecnt.updated = false
    ∧ (apu_process zero_bus 1 (apu_process zero_bus 1 parity_demo)).framecnt.count = 2
    ∧ (apu_process zero_bus (1 + 1) parity_demo).framecnt.count = 3
    ∧ apu_process zero_bus 1 (apu_process zero_bus 1 parity_demo)
        ≠ apu_process zero_bus (1 + 1) parity_demo := by
  refine ⟨by decide, by decide, by decide, ?_⟩
  intro h
  have h2 := congrArg (fun t => t.framecnt.count) h
  exact absurd h2 (by decide)

/-- C16 (amended): the pulse timers, the noise timer and the frame counter advance
on the odd loop indices of each call of `apu_process`: with no pending reset an even
index leaves the pulse, noise and frame-counter records unchanged, an odd index runs
the frame clock and the wave timers; and for every APU state with no pending reset
and all cycle counts a and b with a even, `apu_process(a)` followed by
`apu_process(b)` leaves the same state as `apu_process(a+b)`. -/
theorem apu_process_split_even (bus : Bus) (s : apu_s) (a b c : Nat)
    (hu : s.framecnt.updated = false) (ha : a % 2 = 0) :
    (c % 2 = 0 →
      (apu_cycle bus c s).pulse1 = s.pulse1 ∧ (apu_cycle bus c s).pulse2 = s.pulse2
      ∧ (apu_cycle bus c s).noise = s.noise ∧ (apu_cycle bus c s).framecnt = s.framecnt)
    ∧ (c % 2 = 1 →
      apu_cycle bus c s = every_cycle_phase bus (wave_timers (frame_clock s)))
    ∧ apu_process bus b (apu_process bus a s) = apu_process bus (a + b) s := by
  refine ⟨?_, ?_, ?_⟩
  · intro hc
    have e : apu_cycle bus c s = every_cycle_phase bus s := by
      unfold apu_cycle frame_phase timer_phase
      rw [Nat.and_one_is_mod, hc]
      simp [hu]
    rw [e]
    exact ⟨rfl, rfl, rfl, rfl⟩
  · intro hc
    unfold apu_cycle frame_phase timer_phase
    rw [Nat.and_one_is_mod, hc]
    simp
  · unfold apu_process
    rw [apu_process_from_add bus a b 0 s]
    exact apu_process_from_parity bus b 0 (0 + a) _ (by omega)

/-- Witness of C16 (amended): two cycles, then three, from `parity_demo`. -/
theorem apu_process_split_even_witness :
    parity_demo.framecnt.updated = false ∧ 2 % 2 = 0
    ∧ apu_process zero_bus 3 (apu_process zero_bus 2 parity_demo)
        = apu_process zero_bus (2 + 3) parity_demo :=
  ⟨by decide, by decide,
   (apu_process_split_even zero_bus parity_demo 2 3 0 (by decide) (by decide)).2.2⟩

/-- C17: from the state left by `apu_reset`, after `$4015 = m`, `$4003 = d1`,
`$4007 = d2`, `$400B = d3`, `$400F = d4` (bytes), bits 0..3 of `apu_read(0x4015)` equal
bits 0..3 of m: an enabled channel's length counter holds the table entry indexed by
the top 5 bits of its byte, which is nonzero, a disabled channel's counter is 0. -/
theorem status_reports_enabled (s : apu_s) (m d1 d2 d3 d4 : Nat)
    (h1 : d1 < 256) (h2 : d2 < 256) (h3 : d3 < 256) (h4 : d4 < 256) :
    Nat.testBit (apu_read 0x4015 (length_loaded m d1 d2 d3 d4 s)).1 0 = m.testBit 0
    ∧ Nat.testBit (apu_read 0x4015 (length_loaded m d1 d2 d3 d4 s)).1 1 = m.testBit 1
    ∧ Nat.testBit (apu_read 0x4015 (length_loaded m d1 d2 d3 d4 s)).1 2 = m.testBit 2
    ∧ Nat.testBit (apu_read 0x4015 (length_loaded m d1 d2 d3 d4 s)).1 3 = m.testBit 3
    ∧ (length_loaded m d1 d2 d3 d4 s).pulse1.counter
        = (if m.testBit 0 then length_lut.getD (d1 >>> 3) 0 else 0)
    ∧ (length_loaded m d1 d2 d3 d4 s).pulse2.counter
        = (if m.testBit 1 then length_lut.getD (d2 >>> 3) 0 else 0)
    ∧ (length_loaded m d1 d2 d3 d4 s).tri.counter
        = (if m.testBit 2 then length_lut.getD (d3 >>> 3) 0 else 0)
    ∧ (length_loaded m d1 d2 d3 d4 s).noise.counter
        = (if m.testBit 3 then length_lut.getD (d4 >>> 3) 0 else 0)
    ∧ 0 < length_lut.getD (d1 >>> 3) 0 ∧ 0 < length_lut.getD (d2 >>> 3) 0
    ∧ 0 < length_lut.getD (d3 >>> 3) 0 ∧ 0 < length_lut.getD (d4 >>> 3) 0 := by
  obtain ⟨c1, c2, c3, c4⟩ := length_loaded_counters m d1 d2 d3 d4 s
  obtain ⟨b0, b1, b2, b3⟩ := status_low_bits (length_loaded m d1 d2 d3 d4 s)
  have hs : ∀ d : Nat, d < 256 → d >>> 3 < 32 := by
    intro d hd
    rw [Nat.shiftRight_eq_div_pow]
    omega
  rw [b0, b1, b2, b3, c1, c2, c3, c4, loaded_bit _ d1 h1, loaded_bit _ d2 h2,
    loaded_bit _ d3 h3, loaded_bit _ d4 h4, BIT_eq_testBit, BIT_eq_testBit, BIT_eq_testBit,
    BIT_eq_testBit]
  exact ⟨rfl, rfl, rfl, rfl, rfl, rfl, rfl, rfl, length_lut_pos _ (hs d1 h1),
    length_lut_pos _ (hs d2 h2), length_lut_pos _ (hs d3 h3), length_lut_pos _ (hs d4 h4)⟩

/-- Witness of C17: pulse 1 and triangle enabled, every length byte 0x08. -/
theorem status_reports_enabled_witness :
    (8 : Nat) < 256
    ∧ Nat.testBit (apu_read 0x4015 (length_loaded 5 8 8 8 8 ntsc_ctx)).1 0 = true
    ∧ Nat.testBit (apu_read 0x4015 (length_loaded 5 8 8 8 8 ntsc_ctx)).1 1 = false :=
  ⟨by decide,
   (status_reports_enabled ntsc_ctx 5 8 8 8 8 (by decide) (by decide) (by decide)
      (by decide)).1.trans (by decide),
   (status_reports_enabled ntsc_ctx 5 8 8 8 8 (by decide) (by decide) (by decide)
      (by decide)).2.1.trans (by decide)⟩

/-- C18: for every APU state, every d and each of pulse 1, pulse 2, triangle, noise
(bits 0, 1, 2, 3): if the channel's bit in d is 0, then after `apu_write(0x4015, d)`
and one half-frame clock its length counter is 0 and its status bit reads 0. -/
theorem disable_clears_length (s : apu_s) (d : Nat) :
    (d.testBit 0 = false →
      (apu_half_frame (apu_write 0x4015 d s)).pulse1.counter = 0
      ∧ Nat.testBit (apu_read 0x4015 (apu_half_frame (apu_write 0x4015 d s))).1 0 = false)
    ∧ (d.testBit 1 = false →
      (apu_half_frame (apu_write 0x4015 d s)).pulse2.counter = 0
      ∧ Nat.testBit (apu_read 0x4015 (apu_half_frame (apu_write 0x4015 d s))).1 1 = false)
    ∧ (d.testBit 2 = false →
      (apu_half_frame (apu_write 0x4015 d s)).tri.counter = 0
      ∧ Nat.testBit (apu_read 0x4015 (apu_half_frame (apu_write 0x4015 d s))).1 2 = false)
    ∧ (d.testBit 3 = false →
      (apu_half_frame (apu_write 0x4015 d s)).noise.counter = 0
      ∧ Nat.testBit (apu_read 0x4015 (apu_half_frame (apu_write 0x4015 d s))).1 3
          = false) := by
  obtain ⟨b0, b1, b2, b3⟩ := status_low_bits (apu_half_frame (apu_write 0x4015 d s))
  have e1 : (apu_half_frame (apu_write 0x4015 d s)).pulse1.counter
      = length_clock (BIT d 0) s.pulse1.env.loop_halt s.pulse1.counter :=
    sweep_clock_counter1 _
  have e2 : (apu_half_frame (apu_write 0x4015 d s)).pulse2.counter
      = length_clock (BIT d 1) s.pulse2.env.loop_halt s.pulse2.counter :=
    sweep_clock_counter2 _
  have e3 : (apu_half_frame (apu_write 0x4015 d s)).tri.counter
      = length_clock (BIT d 2) s.tri.halt s.tri.counter := rfl
  have e4 : (apu_half_frame (apu_write 0x4015 d s)).noise.counter
      = length_clock (BIT d 3) s.noise.env.loop_halt s.noise.counter := rfl
  rw [b0, b1, b2, b3, e1, e2, e3, e4, BIT_eq_testBit, BIT_eq_testBit, BIT_eq_testBit,
    BIT_eq_testBit]
  refine ⟨?_, ?_, ?_, ?_⟩ <;> intro h <;> rw [h, length_clock_disabled] <;>
    exact ⟨rfl, by decide⟩

/-- Witness of C18: disabling pulse 1 in `held_pulse1`, whose counter is 254. -/
theorem disable_clears_length_witness :
    Nat.testBit 0x0E 0 = false ∧ held_pulse1.pulse1.counter = 254
    ∧ (apu_half_frame (apu_write 0x4015 0x0E held_pulse1)).pulse1.counter = 0 :=
  ⟨by decide, by decide, ((disable_clears_length held_pulse1 0x0E).1 (by decide)).1⟩

/-- C19 (evaluation of the code): with bank register 0 holding 16 and no padding,
the claimed index for address 0x8001 is 16 * 0x1000 + 1 = 65537, but the 16-bit
parameter of `read_nsf_data` reduces it modulo 65536: for every image,
`cart_read_bankswitch(0x8001)` and the bus read return the image byte at index 1. -/
theorem cart_read_bankswitch_wraps (data : List Nat) :
    (bank_demo data).bankswitch.getD 0 0 = 16 ∧ (bank_demo data).bank_padding = 0
    ∧ (bank_demo data).nsf_data = data
    ∧ cart_read_bankswitch (bank_demo data) 0x8001 = data.getD 1 0
    ∧ Rd6502 (bank_demo data) 0x8001 = data.getD 1 0 :=
  ⟨rfl, rfl, rfl, bank_demo_read data,
   (bank_demo_bus_read data).trans (bank_demo_read data)⟩

/-- C20 (counterexample): after reset and `$4000 = 0x1F` pulse 1's envelope has
`const_vol` set and `volperiod` 15 while `out` is still 0. -/
theorem envelope_out_stale_counterexample :
    const_vol_demo.pulse1.env.const_vol = true ∧ const_vol_demo.pulse1.env.volperiod = 15
    ∧ const_vol_demo.pulse1.env.out = 0
    ∧ ¬ env_follows const_vol_demo.pulse1.env := by
  decide

/-- C20 (amended): immediately after every quarter-frame clock each of the three
envelopes (pulse 1, pulse 2, noise) satisfies out = vol_period if const_vol is set and
out = counter otherwise; the relation holds after `apu_reset` and is kept by
`apu_process` and by `apu_output`. -/
theorem envelope_out_follows (bus : Bus) (n : Nat) (s : apu_s) :
    env_out_ok (apu_quarter_frame s)
    ∧ env_out_ok (apu_reset s)
    ∧ (env_out_ok s → env_out_ok (apu_process bus n s))
    ∧ (env_out_ok s → env_out_ok (apu_output bus s).2) :=
  ⟨⟨envelope_clock_follows _, envelope_clock_follows _, envelope_clock_follows _⟩,
   ⟨rfl, rfl, rfl⟩,
   fun h => apu_process_from_preserves env_out_ok bus (env_out_ok_cycle bus) n 0 s h,
   fun h => apu_advance_preserves env_out_ok bus (env_out_ok_cycle bus)
     (fun _ _ ht => ht) s h⟩

/-- Witness of C20 (amended): five cycles after the reset of the NTSC context. -/
theorem envelope_out_follows_witness :
    env_out_ok (apu_reset ntsc_ctx)
    ∧ env_out_ok (apu_process zero_bus 5 (apu_reset ntsc_ctx)) :=
  ⟨by decide,
   (envelope_out_follows zero_bus 5 (apu_reset ntsc_ctx)).2.2.1 (by decide)⟩

/-- C21: two contexts created with the same sample rate, clock standard and mixer
tables are equal after `apu_reset`, whatever the allocated blocks held, so the same
sequence of calls then returns the same samples and leaves the same state. -/
theorem reset_erases_history (samplerate clockstandard : Nat) (pulse_lut tnd_lut : List Nat)
    (mem1 mem2 : apu_s) (ops : List Op) :
    apu_reset (apu_create samplerate clockstandard pulse_lut tnd_lut mem1)
      = apu_reset (apu_create samplerate clockstandard pulse_lut tnd_lut mem2)
    ∧ samples ops (apu_reset (apu_create samplerate clockstandard pulse_lut tnd_lut mem1))
      = samples ops (apu_reset (apu_create samplerate clockstandard pulse_lut tnd_lut mem2))
    ∧ run ops (apu_reset (apu_create samplerate clockstandard pulse_lut tnd_lut mem1))
      = run ops (apu_reset (apu_create samplerate clockstandard pulse_lut tnd_lut mem2)) := by
  have h : apu_reset (apu_create samplerate clockstandard pulse_lut tnd_lut mem1)
      = apu_reset (apu_create samplerate clockstandard pulse_lut tnd_lut mem2) := rfl
  exact ⟨h, by rw [h], by rw [h]⟩

/-- C22: for every APU state in which pulse 1 is enabled and its loop/halt flag is
set, `apu_process(n)` leaves pulse 1's length counter unchanged; after `$4015 = 0x01`,
`$4003 = 0x08`, `$4000 = 0x30`, `$4002 = 0x00`, `$4003 = 0x00` and 1,790,000 cycles the
counter is 10, greater than 0, and bit 0 of the status read is 1, on every bus. -/
theorem halt_keeps_length (bus : Bus) (n : Nat) (s s0 : apu_s) :
    (s.pulse1.enabled = true → s.pulse1.env.loop_halt = true →
      (apu_process bus n s).pulse1.counter = s.pulse1.counter)
    ∧ (apu_process bus 1790000 (hold_scenario s0)).pulse1.counter = 10
    ∧ 0 < (apu_process bus 1790000 (hold_scenario s0)).pulse1.counter
    ∧ Nat.testBit (apu_read 0x4015 (apu_process bus 1790000 (hold_scenario s0))).1 0 = true := by
  have key : ∀ t : apu_s, t.pulse1.enabled = true → t.pulse1.env.loop_halt = true →
      ∀ m, (apu_process bus m t).pulse1.counter = t.pulse1.counter := by
    intro t h1 h2 m
    exact (apu_process_from_preserves (pulse1_held t.pulse1.counter) bus
      (pulse1_held_cycle _ bus) m 0 t ⟨h1, h2, rfl⟩).2.2
  have hs : (apu_process bus 1790000 (hold_scenario s0)).pulse1.counter = 10 :=
    key (hold_scenario s0) rfl rfl 1790000
  refine ⟨fun h1 h2 => key s h1 h2 n, hs, by rw [hs]; decide, ?_⟩
  rw [(status_low_bits _).1, hs]
  decide

/-- Witness of C22: a hundred thousand cycles from `held_pulse1`. -/
theorem halt_keeps_length_witness :
    held_pulse1.pulse1.enabled = true ∧ held_pulse1.pulse1.env.loop_halt = true
    ∧ (apu_process zero_bus 100000 held_pulse1).pulse1.counter = 254 :=
  ⟨by decide, by decide,
   ((halt_keeps_length zero_bus 100000 held_pulse1 ntsc_ctx).1 (by decide) (by decide)).trans
     (by decide)⟩

/-- C23: for a pulse channel that is enabled with halt clear and length counter L
(a byte), after k half-frame clocks the length counter is max(L - k, 0); with L = 10
loaded by `$4015 = 0x01`, `$4003 = 0x00` it is positive for k < 10 and for k >= 10 it is
0, the status bit is 0 and the pulse output is 0. -/
theorem length_counts_down (s s0 : apu_s) (k : Nat) :
    (pulse_running s.pulse1 →
      (half_frames k s).pulse1.counter = max (s.pulse1.counter - k) 0)
    ∧ (pulse_running s.pulse2 →
      (half_frames k s).pulse2.counter = max (s.pulse2.counter - k) 0)
    ∧ pulse_running (decay_scenario s0).pulse1
    ∧ (decay_scenario s0).pulse1.counter = 10
    ∧ (half_frames k (decay_scenario s0)).pulse1.counter = 10 - k
    ∧ (k < 10 → 0 < (half_frames k (decay_scenario s0)).pulse1.counter)
    ∧ (10 ≤ k →
        (half_frames k (decay_scenario s0)).pulse1.counter = 0
        ∧ Nat.testBit (apu_read 0x4015 (half_frames k (decay_scenario s0))).1 0 = false
        ∧ pulse_out (half_frames k (decay_scenario s0)).pulse1 = 0) := by
  have h10 : (decay_scenario s0).pulse1.counter = 10 := rfl
  have hr : pulse_running (decay_scenario s0).pulse1 := ⟨rfl, rfl, by rw [h10]; decide⟩
  have hk : (half_frames k (decay_scenario s0)).pulse1.counter = 10 - k :=
    half_frames_running1 k _ hr
  refine ⟨?_, ?_, hr, rfl, hk, ?_, ?_⟩
  · intro h
    rw [half_frames_running1 k s h, Nat.max_eq_left (Nat.zero_le _)]
  · intro h
    rw [half_frames_running2 k s h, Nat.max_eq_left (Nat.zero_le _)]
  · intro h
    rw [hk]; omega
  · intro h
    have h0 : (half_frames k (decay_scenario s0)).pulse1.counter = 0 := by
      rw [hk]; omega
    refine ⟨h0, ?_, ?_⟩
    · rw [(status_low_bits _).1, h0]
      decide
    · unfold pulse_out
      rw [if_pos (Or.inl h0)]

/-- Witness of C23: three and ten half-frame clocks after the length load. -/
theorem length_counts_down_witness :
    pulse_running (decay_scenario ntsc_ctx).pulse1 ∧ 10 ≤ 10
    ∧ (half_frames 3 (decay_scenario ntsc_ctx)).pulse1.counter = 7
    ∧ (half_frames 10 (decay_scenario ntsc_ctx)).pulse1.counter = 0 :=
  ⟨(length_counts_down ntsc_ctx ntsc_ctx 0).2.2.1, by decide,
   ((length_counts_down (decay_scenario ntsc_ctx) ntsc_ctx 3).1
      (length_counts_down ntsc_ctx ntsc_ctx 0).2.2.1).trans (by decide),
   ((length_counts_down ntsc_ctx ntsc_ctx 10).2.2.2.2.2.2 (by decide)).1⟩

set_option maxRecDepth 100000 in
/-- C24 (counterexample): in the NTSC context after reset, `$400E = 0x00`,
`$400F = 0x08` and `apu_process(60)` the shift register is 0x200, while the reference
LFSR stepped 7 times from 1 gives 0x100. -/
theorem noise_steps_counterexample :
    (apu_process zero_bus 60 (noise_scenario 0x08 ntsc_ctx)).noise.shiftreg = 0x200
    ∧ lfsr_iter false 7 1 = 0x100
    ∧ (apu_process zero_bus 60 (noise_scenario 0x08 ntsc_ctx)).noise.shiftreg
        ≠ lfsr_iter false 7 1 := by
  decide

set_option maxRecDepth 100000 in
/-- C24 (amended): from the state left by `apu_reset`, with noise period table entry 0
equal to 4, after `$400E = 0x00` and a length load, `apu_process(60)` steps the noise
LFSR exactly 6 times (on the first of the 30 timer ticks and then every 5 ticks): the
shift register equals the reference LFSR started from 1 and stepped 6 times, 0x200,
on every bus. -/
theorem noise_steps_in_60_cycles (bus : Bus) (s : apu_s) (d : Nat)
    (h : s.noise_periods.getD 0 0 = 4) :
    (noise_scenario d s).noise.period_actual = 4
    ∧ (noise_scenario d s).noise.mode = false
    ∧ (noise_scenario d s).noise.shiftreg = 1
    ∧ (apu_process bus 60 (noise_scenario d s)).noise.shiftreg = lfsr_iter false 6 1
    ∧ lfsr_iter false 6 1 = 0x200
    ∧ lfsr_iter false 6 1 ≠ lfsr_iter false 7 1 := by
  have hc := noise_core_process false 4 bus 60 0 (0, 1) (noise_scenario d s)
    (noise_scenario_core d s h)
  have he : noise_ticks false 4 0 60 (0, 1) = (0, lfsr_iter false 6 1) := by decide
  rw [he] at hc
  obtain ⟨k1, k2, -, k4⟩ := noise_scenario_core d s h
  exact ⟨k2, k1, k4, hc.2.2.2, by decide, by decide⟩

set_option maxRecDepth 100000 in
/-- Witness of C24 (amended): the NTSC context. -/
theorem noise_steps_in_60_cycles_witness :
    ntsc_ctx.noise_periods.getD 0 0 = 4
    ∧ (apu_process zero_bus 60 (noise_scenario 0x08 ntsc_ctx)).noise.shiftreg = 0x200 :=
  ⟨by decide,
   (noise_steps_in_60_cycles zero_bus ntsc_ctx 0x08 (by decide)).2.2.2.1.trans (by decide)⟩

/-- C25 (evaluation of the code): pulse 1 with sweep enabled, shift 1, negate 0,
sweep period 0 and timer period 0x100.  After 10 half-frame clocks the target is 2916,
above 0x7FF, and `sweep_silence` is set; the sweep update of the 12th half-frame clock
stores the target into the 11-bit timer period (868), recomputes the target (1302)
and clears `sweep_silence`. -/
theorem sweep_unmutes_after_overflow :
    (sweep_scenario ntsc_ctx).pulse1.sweep_enable = true
    ∧ (sweep_scenario ntsc_ctx).pulse1.sweep_shift = 1
    ∧ (sweep_scenario ntsc_ctx).pulse1.sweep_negate = false
    ∧ (sweep_scenario ntsc_ctx).pulse1.timer_period = 0x100
    ∧ (half_frames 9 (sweep_scenario ntsc_ctx)).pulse1.sweep_target = 1944
    ∧ (half_frames 10 (sweep_scenario ntsc_ctx)).pulse1.sweep_target = 2916
    ∧ (half_frames 10 (sweep_scenario ntsc_ctx)).pulse1.sweep_silence = true
    ∧ (half_frames 12 (sweep_scenario ntsc_ctx)).pulse1.timer_period = 868
    ∧ (half_frames 12 (sweep_scenario ntsc_ctx)).pulse1.sweep_target = 1302
    ∧ (half_frames 12 (sweep_scenario ntsc_ctx)).pulse1.sweep_silence = false := by
  decide

/-- C26: for every timer period below 2048 the sweep target is, over the integers
and without 12-bit wrap, period + delta when negate is clear, period - delta for
pulse 2 and period - (delta - 1) for pulse 1 when negate is set, with
delta = period >> shift; `sweep_silence` is set exactly when period < 8 or
target > 0x7FF; and the writes to `$4002`, `$4006` recompute it from a period below
2048. -/
theorem sweep_target_no_wrap (s : apu_s) (d : Nat) (p : apupulse_s)
    (h : p.timer_period < 2048) :
    (sweep_target_pulse1 p : Int)
      = (if p.sweep_negate then
          (p.timer_period : Int) - (((p.timer_period >>> p.sweep_shift : Nat) : Int) - 1)
        else (p.timer_period : Int) + ((p.timer_period >>> p.sweep_shift : Nat) : Int))
    ∧ (sweep_target_pulse2 p : Int)
      = (if p.sweep_negate then
          (p.timer_period : Int) - ((p.timer_period >>> p.sweep_shift : Nat) : Int)
        else (p.timer_period : Int) + ((p.timer_period >>> p.sweep_shift : Nat) : Int))
    ∧ (apu_calcsweep_pulse1 p).sweep_target = sweep_target_pulse1 p
    ∧ (apu_calcsweep_pulse2 p).sweep_target = sweep_target_pulse2 p
    ∧ ((apu_calcsweep_pulse1 p).sweep_silence = true
        ↔ (p.timer_period < 8 ∨ sweep_target_pulse1 p > 0x7FF))
    ∧ ((apu_calcsweep_pulse2 p).sweep_silence = true
        ↔ (p.timer_period < 8 ∨ sweep_target_pulse2 p > 0x7FF))
    ∧ (apu_write 0x4002 d s).pulse1 = apu_calcsweep_pulse1 (write_tmrl d s.pulse1)
    ∧ (apu_write 0x4006 d s).pulse2 = apu_calcsweep_pulse2 (write_tmrl d s.pulse2)
    ∧ (write_tmrl d s.pulse1).timer_period < 2048
    ∧ (write_tmrh_period d s.pulse1).timer_period < 2048 := by
  refine ⟨sweep_target1_exact p h, sweep_target2_exact p h, rfl, rfl, ?_, ?_, rfl, rfl,
    Nat.mod_lt _ (by decide), Nat.mod_lt _ (by decide)⟩
  · show decide (p.timer_period < 8 ∨ sweep_target_pulse1 p > 0x7FF) = true ↔ _
    exact decide_eq_true_iff
  · show decide (p.timer_period < 8 ∨ sweep_target_pulse2 p > 0x7FF) = true ↔ _
    exact decide_eq_true_iff

/-- Witness of C26: pulse 1 of the sweep scenario, period 0x100 and shift 1. -/
theorem sweep_target_no_wrap_witness :
    (sweep_scenario ntsc_ctx).pulse1.timer_period < 2048
    ∧ (sweep_target_pulse1 (sweep_scenario ntsc_ctx).pulse1 : Int) = 384 :=
  ⟨by decide,
   (sweep_target_no_wrap ntsc_ctx 0 (sweep_scenario ntsc_ctx).pulse1 (by decide)).1.trans
     (by decide)⟩

/-- C27: for every envelope state (fields within their widths) one quarter-frame
clock does the following: if `start` is set it clears `start` and sets counter = 15 and
divider = vol_period + 1; otherwise it decrements the 5-bit divider and, when the
divider reaches 0, reloads it to vol_period + 1 and decrements the counter if it is
positive, or sets it to 15 if it is 0 and `loop_halt` is set; afterwards
out = vol_period if `const_vol` else counter.  `apu_quarter_frame` applies this to the
three envelopes. -/
theorem envelope_quarter_frame (s : apu_s) (e : apuenvelope_s) (h : env_wf e) :
    (e.start = true →
      envelope_clock e =
        { e with start := false, counter := 15, divider := e.volperiod + 1,
                 out := if e.const_vol then e.volperiod else 15 })
    ∧ (e.start = false → (e.divider + 31) % 32 = 0 →
      envelope_clock e =
        { e with
          divider := e.volperiod + 1
          counter := if e.counter > 0 then e.counter - 1 else if e.loop_halt then 15 else 0
          out := if e.const_vol then e.volperiod
                 else if e.counter > 0 then e.counter - 1
                 else if e.loop_halt then 15 else 0 })
    ∧ (e.start = false → (e.divider + 31) % 32 ≠ 0 →
      envelope_clock e =
        { e with divider := (e.divider + 31) % 32
                 out := if e.const_vol then e.volperiod else e.counter })
    ∧ (0 < e.divider → (e.divider + 31) % 32 = e.divider - 1)
    ∧ (envelope_clock e).out
        = (if (envelope_clock e).const_vol then (envelope_clock e).volperiod
            else (envelope_clock e).counter)
    ∧ (apu_quarter_frame s).pulse1.env = envelope_clock s.pulse1.env
    ∧ (apu_quarter_frame s).pulse2.env = envelope_clock s.pulse2.env
    ∧ (apu_quarter_frame s).noise.env = envelope_clock s.noise.env := by
  refine ⟨envelope_step_start e h, envelope_step_reload e h, envelope_step_tick e, ?_,
    envelope_clock_follows e, rfl, rfl, rfl⟩
  intro hp
  have := h.2.2.1
  omega

/-- Witness of C27: the first quarter-frame clock of pulse 1 in `const_vol_demo`. -/
theorem envelope_quarter_frame_witness :
    env_wf const_vol_demo.pulse1.env ∧ const_vol_demo.pulse1.env.start = false
    ∧ (envelope_clock const_vol_demo.pulse1.env).out = 15 :=
  ⟨by decide, by decide,
   (congrArg apuenvelope_s.out
     ((envelope_quarter_frame const_vol_demo const_vol_demo.pulse1.env (by decide)).2.2.1
       (by decide) (by decide))).trans (by decide)⟩

/-- C28 (counterexample): in `dmc_demo` (control set, buffer empty, one byte left at
0xC000, no loop) the memory reader sets irq and leaves 0 bytes, but the sample
address stays 0xC000 instead of advancing by one. -/
theorem dmc_reader_last_byte_counterexample :
    dmc_demo.dmc.control = true ∧ dmc_demo.dmc.buffered = false
    ∧ dmc_demo.dmc.bytesleft = 1 ∧ dmc_demo.dmc.loop = false
    ∧ dmc_demo.dmc.addresscur = 0xC000
    ∧ (dmc_reader zero_bus dmc_demo.dmc).irq = true
    ∧ (dmc_reader zero_bus dmc_demo.dmc).bytesleft = 0
    ∧ (dmc_reader zero_bus dmc_demo.dmc).addresscur = 0xC000
    ∧ (dmc_reader zero_bus dmc_demo.dmc).addresscur ≠ dmc_demo.dmc.addresscur + 1 := by
  decide

/-- C28 (amended): for every DMC state (fields within their widths) with control
set, buffer empty and bytes left, the memory reader loads the sample byte from the
bus at the sample address, decrements the bytes left and sets `buffered`; if bytes
remain it advances the address by one (0xFFFF wraps to 0x8000); if none remain it
reloads address and bytes left from base and length when `loop` is set, and otherwise
sets irq and leaves the address unchanged.  With control clear, the buffer full or
no bytes left the reader changes nothing.  A non-looping sample sets irq when its last
byte is read. -/
theorem dmc_reader_step (bus : Bus) (d : apudmc_s) (hb : d.bytesleft < 4096)
    (ha : d.addresscur < 65536) :
    (d.control = true → d.buffered = false → 0 < d.bytesleft →
      dmc_reader bus d =
        { d with
          sample := Rd6502 bus d.addresscur
          buffered := true
          bytesleft := if d.bytesleft = 1 then (if d.loop then d.length else 0)
                       else d.bytesleft - 1
          addresscur := if d.bytesleft = 1 then (if d.loop then d.address else d.addresscur)
                        else if d.addresscur = 0xFFFF then 0x8000 else d.addresscur + 1
          irq := if d.bytesleft = 1 ∧ d.loop = false then true else d.irq })
    ∧ (d.control = false ∨ d.buffered = true ∨ d.bytesleft = 0 → dmc_reader bus d = d)
    ∧ (d.control = true → d.buffered = false → d.bytesleft = 1 → d.loop = false →
        (dmc_reader bus d).irq = true ∧ (dmc_reader bus d).bytesleft = 0) := by
  have key : d.control = true → d.buffered = false → 0 < d.bytesleft →
      dmc_reader bus d =
        { d with
          sample := Rd6502 bus d.addresscur
          buffered := true
          bytesleft := if d.bytesleft = 1 then (if d.loop then d.length else 0)
                       else d.bytesleft - 1
          addresscur := if d.bytesleft = 1 then (if d.loop then d.address else d.addresscur)
                        else if d.addresscur = 0xFFFF then 0x8000 else d.addresscur + 1
          irq := if d.bytesleft = 1 ∧ d.loop = false then true else d.irq } := by
    intro hc hbuf hpos
    have hm : (d.bytesleft - 1) % 4096 = d.bytesleft - 1 := Nat.mod_eq_of_lt (by omega)
    have hcond : (!d.buffered) = true ∧ d.bytesleft ≠ 0 := by
      rw [hbuf]
      exact ⟨rfl, by omega⟩
    unfold dmc_reader
    rw [if_pos hc, if_pos hcond]
    unfold dmc_fetch
    rw [hm]
    by_cases h1 : d.bytesleft = 1
    · have hz : d.bytesleft - 1 = 0 := by omega
      cases hl : d.loop <;> simp [h1, hl]
    · have hz : ¬ (d.bytesleft - 1 = 0) := by omega
      by_cases hf : d.addresscur = 0xFFFF
      · simp [h1, hz, hf]
      · have hma : (d.addresscur + 1) % 65536 = d.addresscur + 1 :=
          Nat.mod_eq_of_lt (by omega)
        simp [h1, hz, hf, hma]
  refine ⟨key, ?_, ?_⟩
  · intro h
    unfold dmc_reader
    rcases h with h | h | h
    · rw [if_neg (by rw [h]; exact Bool.false_ne_true)]
    · by_cases hc : d.control = true
      · rw [if_pos hc, if_neg (by rw [h]; simp)]
      · rw [if_neg hc]
    · by_cases hc : d.control = true
      · rw [if_pos hc, if_neg (by rw [h]; simp)]
      · rw [if_neg hc]
  · intro hc hbuf h1 hl
    rw [key hc hbuf (by omega)]
    simp [h1, hl]

/-- Witness of C28 (amended): the last byte of `dmc_demo`. -/
theorem dmc_reader_step_witness :
    dmc_demo.dmc.bytesleft < 4096 ∧ dmc_demo.dmc.addresscur < 65536
    ∧ (dmc_reader zero_bus dmc_demo.dmc).irq = true :=
  ⟨by decide, by decide,
   ((dmc_reader_step zero_bus dmc_demo.dmc (by decide) (by decide)).2.2 (by decide)
      (by decide) (by decide) (by decide)).1⟩

/-- C29: in every state reachable from `apu_reset` by calls of `apu_write`, `apu_read`,
`apu_process` and `apu_output`, the frame count is at most the terminal value of the
current mode (14914 in 4-step, 18640 in 5-step mode), so the 15-bit increment does
not wrap: the next count is 0 at the terminal value and count + 1 otherwise. -/
theorem frame_count_bounded (s0 : apu_s) (ops : List Op) :
    (run ops (apu_reset s0)).framecnt.count
      ≤ frame_terminal (run ops (apu_reset s0)).framecnt.mode
    ∧ ((run ops (apu_reset s0)).framecnt.mode = false →
        (run ops (apu_reset s0)).framecnt.count ≤ 14914)
    ∧ ((run ops (apu_reset s0)).framecnt.mode = true →
        (run ops (apu_reset s0)).framecnt.count ≤ 18640)
    ∧ (run ops (apu_reset s0)).framecnt.count + 1 < 2 ^ 15
    ∧ (frame_advance (run ops (apu_reset s0)).framecnt).count
        = (if (run ops (apu_reset s0)).framecnt.count
              = frame_terminal (run ops (apu_reset s0)).framecnt.mode
            then 0 else (run ops (apu_reset s0)).framecnt.count + 1) := by
  have h0 : frame_ok (apu_reset s0) := Nat.zero_le _
  have h : frame_ok (run ops (apu_reset s0)) :=
    run_preserves frame_ok frame_ok_write frame_ok_cycle (fun _ _ ht => ht) ops _ h0
  have ht : frame_terminal (run ops (apu_reset s0)).framecnt.mode ≤ 18640 := by
    unfold frame_terminal
    split_ifs <;> omega
  refine ⟨h, ?_, ?_, ?_, (frame_ok_advance _ h).2⟩
  · intro hm
    have h2 := h
    unfold frame_ok frame_terminal at h2
    rw [hm] at h2
    exact h2
  · intro hm
    have h2 := h
    unfold frame_ok frame_terminal at h2
    rw [hm] at h2
    exact h2
  · have h2 : (run ops (apu_reset s0)).framecnt.count
        ≤ frame_terminal (run ops (apu_reset s0)).framecnt.mode := h
    omega

/-- Witness of C29: two cycles after the reset of the NTSC context. -/
theorem frame_count_bounded_witness :
    (run [Op.process zero_bus 2] (apu_reset ntsc_ctx)).framecnt.mode = false
    ∧ (run [Op.process zero_bus 2] (apu_reset ntsc_ctx)).framecnt.count ≤ 14914 :=
  ⟨by decide,
   (frame_count_bounded ntsc_ctx [Op.process zero_bus 2]).2.1 (by decide)⟩

/-- C30: for every APU state, every even cycle count a and every cycle count b,
`apu_process(a)` followed by `apu_process(b)` leaves the same state as
`apu_process(a+b)`; the loop body depends on the loop index only through its parity. -/
theorem apu_process_even_first (bus : Bus) (s : apu_s) (a b c : Nat) (ha : a % 2 = 0) :
    apu_process bus b (apu_process bus a s) = apu_process bus (a + b) s
    ∧ apu_cycle bus c s = apu_cycle bus (c % 2) s
    ∧ apu_process_from bus c b s = apu_process_from bus (c % 2) b s
    ∧ apu_process_from bus a b s = apu_process bus b s := by
  refine ⟨?_, apu_cycle_mod_two bus c s, ?_, ?_⟩
  · unfold apu_process
    rw [apu_process_from_add bus a b 0 s]
    exact apu_process_from_parity bus b 0 (0 + a) _ (by omega)
  · exact apu_process_from_parity bus b c (c % 2) s (by omega)
  · exact apu_process_from_parity bus b a 0 s (by omega)

/-- Witness of C30: four cycles, then three, from the reset state (a frame-counter
reset is pending there). -/
theorem apu_process_even_first_witness :
    4 % 2 = 0
    ∧ apu_process zero_bus 3 (apu_process zero_bus 4 (apu_reset ntsc_ctx))
        = apu_process zero_bus (4 + 3) (apu_reset ntsc_ctx) :=
  ⟨by decide, (apu_process_even_first zero_bus (apu_reset ntsc_ctx) 4 3 0 (by decide)).1⟩

end TinyNSF
